import Mathlib

/-!
Verification development for the mos observability server.

The JavaScript sources are shallowly embedded as Lean definitions:
mutable classes become explicit state records with pure transition
functions, JS Maps become association lists with unique keys, uuid
generation becomes a counter, and wall-clock reads become explicit
time parameters.  Promise-based code is modelled with its sequential
semantics (one call completes before the next begins).
-/

set_option maxHeartbeats 1000000
set_option maxRecDepth 4000

namespace Mos

/-! ### Association-list maps (shallow embedding of JS Map) -/

/-- First-match lookup in an association list (JS Map.get; keys are
unique by construction of the update functions below). -/
def alookup {κ β : Type} [DecidableEq κ] (k : κ) : List (κ × β) → Option β
  | [] => none
  | (k2, v) :: rest => if k2 = k then some v else alookup k rest

/-- JS Map.set: replace the value at an existing key in place, or append
a fresh binding at the end (insertion order is preserved). -/
def mapSet {κ β : Type} [DecidableEq κ] (l : List (κ × β)) (k : κ) (v : β) : List (κ × β) :=
  if (alookup k l).isSome then
    l.map (fun p => if p.1 = k then (p.1, v) else p)
  else
    l ++ [(k, v)]

/-- JS Map.delete. -/
def mapDelete {κ β : Type} [DecidableEq κ] (l : List (κ × β)) (k : κ) : List (κ × β) :=
  l.filter (fun p => p.1 ≠ k)

/-- The last n elements of a list, in order (JS Array.slice(-n)). -/
def rtake {α : Type} (l : List α) (n : Nat) : List α :=
  l.drop (l.length - n)

/-- JS String.prototype.startsWith, phrased over the character list so
that it evaluates by kernel reduction. -/
def jsStartsWith (s pre : String) : Bool :=
  pre.data.isPrefixOf s.data

/-- JS truthiness of an optional string: null, undefined and the empty
string are falsy. -/
def strFalsy : Option String → Bool
  | none => true
  | some s => s = ""

/-- JS pattern (x || d) for an optional string value. -/
def strOrElse (x : Option String) (d : String) : String :=
  match x with
  | none => d
  | some s => if s = "" then d else s

/-! ### Event and session model (src/types.js)

Stored events carry the fields SessionManager reads.  The details
payload is represented by the three properties the manager accesses
(details.name, details.description, details.task_name); absence of the
whole payload or of a property is Option.none. -/

/-- An event as submitted to SessionManager.addEvent.  An empty
timestamp string models a falsy/absent timestamp. -/
structure InEvent where
  timestamp : String
  event_type : String
  status : String
  duration_ms : Option Int
  parent_id : Option String
  correlation_id : Option String
  name : Option String
  description : Option String
  task_name : Option String
deriving DecidableEq, Repr

/-- A stored event: the input event plus the id assigned at insertion
time (uuidv4 is modelled by a fresh counter-generated id). -/
structure StoredEvent where
  id : String
  timestamp : String
  event_type : String
  status : String
  duration_ms : Option Int
  parent_id : Option String
  correlation_id : Option String
  name : Option String
  description : Option String
  task_name : Option String
deriving DecidableEq, Repr

/-- An entry of session.active_operations. -/
structure ActiveOp where
  id : String
  type : String
  name : String
  started : String
deriving DecidableEq, Repr

/-- A session record (createSession in src/types.js); metrics fields are
inlined. -/
structure Session where
  id : String
  start_time : String
  status : String
  root_task : String
  active_operations : List ActiveOp
  total_tools_used : Nat
  total_mcp_calls : Nat
  total_duration_ms : Int
  error_count : Nat
deriving DecidableEq, Repr

/-- createSession from src/types.js: a fresh active session. -/
def createSessionRecord (sessionId : String) (rootTask : String) (now : String) : Session :=
  { id := sessionId
    start_time := now
    status := "active"
    root_task := rootTask
    active_operations := []
    total_tools_used := 0
    total_mcp_calls := 0
    total_duration_ms := 0
    error_count := 0 }

/-! ### SessionManager state -/

/-- The mutable state of a SessionManager instance.  nextId is the
counter standing in for uuidv4. -/
structure SMState where
  sessions : List (String × Session)
  sessionEvents : List (String × List StoredEvent)
  maxEventsPerSession : Nat
  nextId : Nat
deriving Repr

/-- The constructor: options.maxEventsPerSession || 1000 (a configured 0
is falsy in JS, hence also replaced by 1000). -/
def mkSessionManager (maxEvents : Option Nat) : SMState :=
  { sessions := []
    sessionEvents := []
    maxEventsPerSession := match maxEvents with
      | none => 1000
      | some n => if n = 0 then 1000 else n
    nextId := 0 }

/-- SessionManager.createSession: idempotent; registers the session and
an empty event history when the id is new. -/
def smCreateSession (st : SMState) (sessionId : String) (rootTask : String)
    (now : String) : SMState :=
  if (alookup sessionId st.sessions).isSome then st
  else
    { st with
      sessions := mapSet st.sessions sessionId (createSessionRecord sessionId rootTask now)
      sessionEvents := mapSet st.sessionEvents sessionId [] }

/-- SessionManager.updateSessionFromEvent: metrics, active operations,
and the automatic session status transition. -/
def updateSessionFromEvent (st : SMState) (sessionId : String) (event : StoredEvent) : SMState :=
  match alookup sessionId st.sessions with
  | none => st
  | some session =>
    let session :=
      if jsStartsWith event.event_type "tool_" && (event.status == "success") then
        { session with total_tools_used := session.total_tools_used + 1 }
      else session
    let session :=
      if jsStartsWith event.event_type "mcp_" && (event.status == "success") then
        { session with total_mcp_calls := session.total_mcp_calls + 1 }
      else session
    let session :=
      if event.status == "error" then
        { session with error_count := session.error_count + 1 }
      else session
    let session :=
      if event.status == "started" || event.status == "running" then
        let operation : ActiveOp :=
          { id := event.id
            type := event.event_type
            name := strOrElse event.name event.event_type
            started := event.timestamp }
        { session with active_operations :=
            (session.active_operations.filter (fun op => op.id ≠ event.id)) ++ [operation] }
      else if event.status == "success" || event.status == "error" || event.status == "timeout" then
        { session with active_operations :=
            session.active_operations.filter (fun op => op.id ≠ event.id) }
      else session
    let session :=
      if event.event_type == "task_started" then
        { session with status := "active" }
      else if event.event_type == "task_complete" then
        if session.active_operations = [] then
          { session with status := "completed" }
        else session
      else if event.event_type == "task_failed" then
        { session with status := "failed" }
      else session
    { st with sessions := mapSet st.sessions sessionId session }

/-- The id assigned to the n-th stored event (stands in for uuidv4). -/
def genId (n : Nat) : String :=
  "uuid-" ++ Nat.repr n

/-- The stored event built inside addEvent from input event e, fresh id
counter n, and the current clock value. -/
def mkStored (n : Nat) (e : InEvent) (now : String) : StoredEvent :=
  { id := genId n
    timestamp := if e.timestamp = "" then now else e.timestamp
    event_type := e.event_type
    status := e.status
    duration_ms := e.duration_ms
    parent_id := e.parent_id
    correlation_id := e.correlation_id
    name := e.name
    description := e.description
    task_name := e.task_name }

/-- SessionManager.addEvent: auto-creates the session, assigns a fresh
id, appends to the bounded per-session history (evicting the oldest
entry when the cap is exceeded) and updates the session record. -/
def addEvent (st : SMState) (sessionId : String) (e : InEvent) (now : String) :
    SMState × Option StoredEvent :=
  let st :=
    if (alookup sessionId st.sessions).isSome then st
    else smCreateSession st sessionId (strOrElse e.task_name "Unknown Task") now
  match alookup sessionId st.sessionEvents with
  | none => (st, none)
  | some events =>
    let stored := mkStored st.nextId e now
    let events := events ++ [stored]
    let events := if st.maxEventsPerSession < events.length then events.tail else events
    let st := { st with
      sessionEvents := mapSet st.sessionEvents sessionId events
      nextId := st.nextId + 1 }
    let st := updateSessionFromEvent st sessionId stored
    (st, some stored)

/-- Filter options of getSessionEvents.  The since comparison on
timestamp strings goes through Date parsing in JS; it is abstracted by
the tsGe oracle (tsGe a b decides new Date(a) >= new Date(b)). -/
structure EventsFilter where
  event_types : Option (List String)
  status : Option String
  since : Option String
  limit : Option Nat

/-- The empty filter {}. -/
def noFilter : EventsFilter :=
  { event_types := none, status := none, since := none, limit := none }

/-- SessionManager.getSessionEvents. -/
def getSessionEvents (tsGe : String → String → Bool) (st : SMState) (sessionId : String)
    (filter : EventsFilter) : List StoredEvent :=
  let events := (alookup sessionId st.sessionEvents).getD []
  let filtered := events
  let filtered :=
    match filter.event_types with
    | none => filtered
    | some types => filtered.filter (fun e => e.event_type ∈ types)
  let filtered :=
    match filter.status with
    | none => filtered
    | some s => filtered.filter (fun e => e.status == s)
  let filtered :=
    match filter.since with
    | none => filtered
    | some since => filtered.filter (fun e => tsGe e.timestamp since)
  let filtered :=
    match filter.limit with
    | none => filtered
    | some n => if n = 0 then filtered else rtake filtered n
  filtered

/-- Folding a list of events through addEvent (sequential submissions to
one session, sharing one clock value). -/
def addEvents (st : SMState) (sessionId : String) (es : List InEvent) (now : String) : SMState :=
  es.foldl (fun s e => (addEvent s sessionId e now).1) st

/-- The stored events produced for inputs es when the id counter starts
at n0. -/
def storedFrom (n0 : Nat) (now : String) : List InEvent → List StoredEvent
  | [] => []
  | e :: rest => mkStored n0 e now :: storedFrom (n0 + 1) now rest

/-! ### Activity tree builder (SessionManager.buildActivityTree)

The JS builder creates one mutable node object per event and wires
children by pushing object references.  Since stored events have unique
ids (fresh uuids), the object graph is represented here by an id-indexed
node list whose children fields hold child ids in attachment order. -/

/-- A tree node as created in pass 1 (children empty). -/
structure BNode where
  id : String
  event_type : String
  name : String
  description : String
  status : String
  timestamp : String
  duration_ms : Option Int
  parent_id : Option String
  correlation_id : Option String
  children : List String
deriving DecidableEq, Repr

/-- Node creation from a stored event (pass 1 body). -/
def mkBNode (e : StoredEvent) : BNode :=
  { id := e.id
    event_type := e.event_type
    name := strOrElse e.name e.event_type
    description := strOrElse e.description ""
    status := e.status
    timestamp := e.timestamp
    duration_ms := e.duration_ms
    parent_id := e.parent_id
    correlation_id := e.correlation_id
    children := [] }

/-- Pass 1: create nodes, skipping successful events when
include_completed is false. -/
def pass1 (include_completed : Bool) (events : List StoredEvent) : List BNode :=
  events.foldl
    (fun acc e =>
      if !include_completed && e.status == "success" then acc
      else acc ++ [mkBNode e])
    []

/-- Push child id cid onto the children list of the node with id pid. -/
def attachChild (acc : List BNode) (pid : String) (cid : String) : List BNode :=
  acc.map (fun m => if m.id = pid then { m with children := m.children ++ [cid] } else m)

/-- Pass 2: attach each node with a resolvable truthy parent_id to its
parent, in node-map insertion order. -/
def pass2 (nodes : List BNode) : List BNode :=
  nodes.foldl
    (fun acc n =>
      match n.parent_id with
      | none => acc
      | some pid =>
        if pid = "" then acc
        else if (nodes.map BNode.id).contains pid then attachChild acc pid n.id
        else acc)
    nodes

/-- The root of the returned tree: absent, a real event node (referenced
by id), or the fabricated synthetic root. -/
inductive RootTask where
  | nullRoot
  | real (id : String)
  | synthetic (name : String) (description : String) (status : String)
      (timestamp : String) (duration_ms : Int) (children : List String)
deriving DecidableEq, Repr

/-- Root selection: first task-type root candidate, else a synthetic
root built from the session with all root candidates as children. -/
def selectRoot (session : Session) (rootNodes : List BNode) : RootTask :=
  if rootNodes.isEmpty then .nullRoot
  else
    match rootNodes.filter (fun n => jsStartsWith n.event_type "task_") with
    | t :: _ => .real t.id
    | [] =>
      .synthetic session.root_task session.root_task session.status session.start_time
        session.total_duration_ms (rootNodes.map BNode.id)

/-- Clear the children of the node with the given id. -/
def clearChildren (nodes : List BNode) (nid : String) : List BNode :=
  nodes.map (fun m => if m.id = nid then { m with children := [] } else m)

/-- limitTreeDepth on the id-indexed graph.  The fuel argument bounds
the recursion; on the tree-shaped graphs produced by pass 2 a fuel of
one plus the node count is never exhausted. -/
def limitNode (maxDepth : Nat) : Nat → List BNode → String → Nat → List BNode
  | 0, nodes, _, _ => nodes
  | fuel + 1, nodes, nid, depth =>
    if maxDepth ≤ depth then clearChildren nodes nid
    else
      match nodes.find? (fun m => m.id = nid) with
      | none => nodes
      | some m =>
        m.children.foldl (fun acc cid => limitNode maxDepth fuel acc cid (depth + 1)) nodes

/-- limitTreeDepth applied to the selected root. -/
def limitRoot (maxDepth : Nat) (nodes : List BNode) (root : RootTask) :
    List BNode × RootTask :=
  match root with
  | .nullRoot => (nodes, root)
  | .real rid => (limitNode maxDepth (nodes.length + 1) nodes rid 0, root)
  | .synthetic nm ds stt ts dur cs =>
    if maxDepth = 0 then (nodes, .synthetic nm ds stt ts dur [])
    else (cs.foldl (fun acc cid => limitNode maxDepth (nodes.length + 1) acc cid 1) nodes, root)

/-- The value returned by buildActivityTree.  session_id is none on the
early not-found/empty return (the JS object then lacks the field). -/
structure TreeResult where
  session_id : Option String
  root_task : RootTask
  nodes : List BNode
deriving DecidableEq, Repr

/-- SessionManager.buildActivityTree. -/
def buildActivityTree (tsGe : String → String → Bool) (st : SMState) (sessionId : String)
    (include_completed : Bool) (max_depth : Nat) : TreeResult :=
  let events := getSessionEvents tsGe st sessionId noFilter
  match alookup sessionId st.sessions with
  | none => { session_id := none, root_task := .nullRoot, nodes := [] }
  | some session =>
    if events.isEmpty then { session_id := none, root_task := .nullRoot, nodes := [] }
    else
      let nodes := pass1 include_completed events
      let rootNodes := nodes.filter (fun n => strFalsy n.parent_id)
      let attached := pass2 nodes
      let root := selectRoot session rootNodes
      let lim := limitRoot max_depth attached root
      { session_id := some sessionId, root_task := lim.2, nodes := lim.1 }

/-! ### Event validation (validateEvent in src/health-monitor.js copy of
types.js)

Raw inputs are arbitrary JS values; they are embedded as a JSON-like
inductive type.  vUndef stands for both absent properties and explicit
undefined: for each field of validateEvent the two cases take the same
branches to the same result, so they are identified.  Date.parse is
abstracted by the parseOk oracle. -/

/-- A JS value as far as validation observes it. -/
inductive JsValue where
  | vUndef
  | vNull
  | vBool (b : Bool)
  | vNum (n : Int)
  | vStr (s : String)
  | vArr (elems : List JsValue)
  | vObj (fields : List (String × JsValue))

/-- Is the value the absent/undefined marker. -/
def isUndef : JsValue → Bool
  | .vUndef => true
  | _ => false

/-- JS truthiness of a JsValue. -/
def jsTruthy : JsValue → Bool
  | .vUndef => false
  | .vNull => false
  | .vBool b => b
  | .vNum n => n ≠ 0
  | .vStr s => s ≠ ""
  | .vArr _ => true
  | .vObj _ => true

-- validateDetailsObject from src/health-monitor.js, with its two
-- recursions over arrays and object properties.
mutual

/-- validateDetailsObject from src/health-monitor.js. -/
def validateDetailsObject (v : JsValue) (currentDepth maxDepth : Nat) : Bool :=
  if maxDepth < currentDepth then false
  else
    match v with
    | .vStr _ => true
    | .vNum _ => true
    | .vBool _ => true
    | .vNull => false
    | .vUndef => false
    | .vArr l =>
      decide (l.length ≤ 100) && validateDetailsList l (currentDepth + 1) maxDepth
    | .vObj fs =>
      decide (fs.length ≤ 50) && validateDetailsFields fs (currentDepth + 1) maxDepth

def validateDetailsList (l : List JsValue) (d m : Nat) : Bool :=
  match l with
  | [] => true
  | x :: xs => validateDetailsObject x d m && validateDetailsList xs d m

def validateDetailsFields (fs : List (String × JsValue)) (d m : Nat) : Bool :=
  match fs with
  | [] => true
  | (k, v) :: rest =>
    decide (k.length ≤ 100) && validateDetailsObject v d m && validateDetailsFields rest d m

end

/-- JS property access displayInfo[k] (first binding wins; real JS
objects have unique keys). -/
def jsGet (fs : List (String × JsValue)) (k : String) : Option JsValue :=
  alookup k fs

/-- One truthy-guarded display_info field check:
(x && (typeof x !== string or x.length > cap)) => invalid. -/
def displayFieldOk (x : Option JsValue) (cap : Nat) : Bool :=
  match x with
  | none => true
  | some v =>
    if jsTruthy v then
      match v with
      | .vStr s => decide (s.length ≤ cap)
      | _ => false
    else true

/-- validateDisplayInfo from src/health-monitor.js.  Object.keys of a
JS array are its element indices, so a non-empty array fails the
allowed-fields check and an empty array passes every check. -/
def validateDisplayInfo (v : JsValue) : Bool :=
  match v with
  | .vObj fs =>
    (fs.map Prod.fst).all (fun k => k ∈ ["name", "description", "icon", "color"]) &&
    displayFieldOk (jsGet fs "name") 200 &&
    displayFieldOk (jsGet fs "description") 500 &&
    displayFieldOk (jsGet fs "icon") 10 &&
    displayFieldOk (jsGet fs "color") 20
  | .vArr l => l.isEmpty
  | _ => false

/-- The enumerated event types (Object.values(EVENT_TYPES)). -/
def eventTypesList : List String :=
  ["task_started", "task_progress", "task_complete", "task_failed",
   "tool_pre_call", "tool_post_call", "tool_error",
   "mcp_request", "mcp_response", "mcp_error",
   "subagent_spawn", "subagent_complete", "subagent_failed"]

/-- The enumerated event statuses (Object.values(EVENT_STATUS)). -/
def eventStatusList : List String :=
  ["started", "running", "success", "error", "timeout"]

/-- A raw event object as passed to validateEvent.  vUndef in a field
means the property is absent (or explicitly undefined, see above). -/
structure RawEvent where
  timestamp : JsValue
  session_id : JsValue
  event_type : JsValue
  status : JsValue
  parent_id : JsValue
  correlation_id : JsValue
  duration_ms : JsValue
  details : JsValue
  display_info : JsValue

/-- An optional-field guard: the field is skipped when null or
undefined. -/
def isNullish : JsValue → Bool
  | .vNull => true
  | .vUndef => true
  | _ => false

/-- validateEvent from src/health-monitor.js, parametrised by the
Date.parse oracle parseOk.  The initial object/hasOwnProperty checks
reduce, for record inputs, to requiring the four mandatory fields to be
present (non-vUndef); a present-but-undefined field would fail its type
check anyway. -/
def validateEvent (parseOk : String → Bool) (e : RawEvent) : Bool :=
  if isUndef e.timestamp || isUndef e.session_id ||
      isUndef e.event_type || isUndef e.status then false
  else
    (match e.session_id with
     | .vStr s => decide (s ≠ "")
     | _ => false) &&
    (match e.event_type with
     | .vStr s => decide (s ∈ eventTypesList)
     | _ => false) &&
    (match e.status with
     | .vStr s => decide (s ∈ eventStatusList)
     | _ => false) &&
    (match e.timestamp with
     | .vStr s => parseOk s
     | _ => false) &&
    (if isNullish e.parent_id then true
     else match e.parent_id with
       | .vStr s => decide (s ≠ "")
       | _ => false) &&
    (if isNullish e.correlation_id then true
     else match e.correlation_id with
       | .vStr s => decide (s ≠ "")
       | _ => false) &&
    (if isNullish e.duration_ms then true
     else match e.duration_ms with
       | .vNum n => decide (0 ≤ n)
       | _ => false) &&
    (if isNullish e.details then true
     else validateDetailsObject e.details 0 3) &&
    (if isNullish e.display_info then true
     else validateDisplayInfo e.display_info)

-- Nesting depth of a JS value: primitives and empty containers have
-- depth 0; a non-empty container is one deeper than its deepest member.
mutual

/-- Nesting depth of a JS value. -/
def jsDepth : JsValue → Nat
  | .vArr l => jsDepthList l
  | .vObj fs => jsDepthFields fs
  | _ => 0

def jsDepthList : List JsValue → Nat
  | [] => 0
  | x :: xs => max (1 + jsDepth x) (jsDepthList xs)

def jsDepthFields : List (String × JsValue) → Nat
  | [] => 0
  | (_, v) :: rest => max (1 + jsDepth v) (jsDepthFields rest)

end

-- Structural caps on a details payload: every object has at most 50
-- properties with keys of at most 100 characters, every array has at
-- most 100 elements, and every leaf is a string, number or boolean
-- (null and undefined leaves are rejected).
mutual

/-- Structural caps on a details payload. -/
def detailsCapsOk : JsValue → Bool
  | .vNull => false
  | .vUndef => false
  | .vStr _ => true
  | .vNum _ => true
  | .vBool _ => true
  | .vArr l => decide (l.length ≤ 100) && detailsCapsOkList l
  | .vObj fs => decide (fs.length ≤ 50) && detailsCapsOkFields fs

def detailsCapsOkList : List JsValue → Bool
  | [] => true
  | x :: xs => detailsCapsOk x && detailsCapsOkList xs

def detailsCapsOkFields : List (String × JsValue) → Bool
  | [] => true
  | (k, v) :: rest => decide (k.length ≤ 100) && detailsCapsOk v && detailsCapsOkFields rest

end

-- The claim-side caps with only the size/length limits the claim lists
-- (no constraint on leaf value types, so null and undefined pass).
mutual

/-- Claim-literal caps on a details payload. -/
def detailsCapsLiteralOk : JsValue → Bool
  | .vArr l => decide (l.length ≤ 100) && detailsCapsLiteralOkList l
  | .vObj fs => decide (fs.length ≤ 50) && detailsCapsLiteralOkFields fs
  | _ => true

def detailsCapsLiteralOkList : List JsValue → Bool
  | [] => true
  | x :: xs => detailsCapsLiteralOk x && detailsCapsLiteralOkList xs

def detailsCapsLiteralOkFields : List (String × JsValue) → Bool
  | [] => true
  | (k, v) :: rest =>
    decide (k.length ≤ 100) && detailsCapsLiteralOk v && detailsCapsLiteralOkFields rest

end

/-- Amended optional-identifier constraint: absent or null, or a
non-empty string. -/
def optIdOkAmended (v : JsValue) : Bool :=
  if isNullish v then true
  else match v with
    | .vStr s => decide (s ≠ "")
    | _ => false

/-- Claim-literal optional-identifier constraint: only an empty present
string is rejected. -/
def optIdOkLiteral (v : JsValue) : Bool :=
  if isNullish v then true
  else match v with
    | .vStr s => decide (s ≠ "")
    | _ => true

/-- Amended duration constraint: absent or null, or a non-negative
number. -/
def durationOkAmended (v : JsValue) : Bool :=
  if isNullish v then true
  else match v with
    | .vNum n => decide (0 ≤ n)
    | _ => false

/-- Claim-literal duration constraint: only a present negative number is
rejected. -/
def durationOkLiteral (v : JsValue) : Bool :=
  if isNullish v then true
  else match v with
    | .vNum n => decide (0 ≤ n)
    | _ => true

/-- Claim-literal display length cap: a present string field must be
within its cap; anything else is unconstrained. -/
def displayFieldLenLiteral (x : Option JsValue) (cap : Nat) : Bool :=
  match x with
  | some (.vStr s) => decide (s.length ≤ cap)
  | _ => true

/-- Claim-literal display_info constraint: the four fields are within
their length caps. -/
def displayLiteralOk (v : JsValue) : Bool :=
  match v with
  | .vObj fs =>
    displayFieldLenLiteral (jsGet fs "name") 200 &&
    displayFieldLenLiteral (jsGet fs "description") 500 &&
    displayFieldLenLiteral (jsGet fs "icon") 10 &&
    displayFieldLenLiteral (jsGet fs "color") 20
  | _ => true

/-- The amended C7 characterisation of validateEvent: the required
fields are present with their expected types (session_id a non-empty
string, event_type and status enumerated, timestamp a parseable
string); parent_id and correlation_id, when present, are non-empty
strings; duration_ms, when present, is a non-negative number; details,
when present, nests at most 3 deep with at most 50 keys per object, 100
elements per list, keys of at most 100 characters, and only string,
number, boolean, array or object values; display_info, when present,
satisfies validateDisplayInfo. -/
def amendedValidEvent (parseOk : String → Bool) (e : RawEvent) : Bool :=
  (match e.session_id with
   | .vStr s => decide (s ≠ "")
   | _ => false) &&
  (match e.event_type with
   | .vStr s => decide (s ∈ eventTypesList)
   | _ => false) &&
  (match e.status with
   | .vStr s => decide (s ∈ eventStatusList)
   | _ => false) &&
  (match e.timestamp with
   | .vStr s => parseOk s
   | _ => false) &&
  optIdOkAmended e.parent_id &&
  optIdOkAmended e.correlation_id &&
  durationOkAmended e.duration_ms &&
  (if isNullish e.details then true
   else decide (jsDepth e.details ≤ 3) && detailsCapsOk e.details) &&
  (if isNullish e.display_info then true else validateDisplayInfo e.display_info)

/-- The claim of C7 read literally: the constraints it lists, with no
type requirements beyond them and no restriction on details leaf
values. -/
def claimC7Literal (parseOk : String → Bool) (e : RawEvent) : Bool :=
  (match e.session_id with
   | .vStr s => decide (s ≠ "")
   | _ => false) &&
  (match e.event_type with
   | .vStr s => decide (s ∈ eventTypesList)
   | _ => false) &&
  (match e.status with
   | .vStr s => decide (s ∈ eventStatusList)
   | _ => false) &&
  (match e.timestamp with
   | .vStr s => parseOk s
   | _ => false) &&
  optIdOkLiteral e.parent_id &&
  optIdOkLiteral e.correlation_id &&
  durationOkLiteral e.duration_ms &&
  (if isNullish e.details then true
   else decide (jsDepth e.details ≤ 3) && detailsCapsLiteralOk e.details) &&
  (if isNullish e.display_info then true else displayLiteralOk e.display_info)


/-! ### Health status (HealthMonitor.determineOverallHealth) -/

/-- Overall health. -/
inductive Health where
  | healthy
  | warning
  | critical
deriving DecidableEq, Repr

/-- HealthMonitor.determineOverallHealth: its inputs are the current
memory metric, the lifetime request totals used to compute the error
rate, the average response time, and the three configured thresholds. -/
def determineOverallHealth (memUsage : ℚ) (reqTotal reqErrors : Nat)
    (avgResponseTime : ℚ) (memThr errThr rtThr : ℚ) : Health :=
  let errorRate : ℚ := if 0 < reqTotal then (reqErrors : ℚ) / (reqTotal : ℚ) else 0
  if memThr < memUsage then .critical
  else if errThr < errorRate then .critical
  else if rtThr * 2 < avgResponseTime then .critical
  else if memThr * (8 / 10) < memUsage then .warning
  else if errThr * (1 / 2) < errorRate then .warning
  else if rtThr < avgResponseTime then .warning
  else .healthy

/-- The amended max-of-severity reading: critical when memory or the
error rate exceed their caps or latency exceeds twice its cap; warning
when memory is past 80 percent of its cap, the error rate past 50
percent of its cap, or latency past its cap. -/
def healthSpecAmended (memUsage : ℚ) (reqTotal reqErrors : Nat)
    (avgResponseTime : ℚ) (memThr errThr rtThr : ℚ) : Health :=
  let errorRate : ℚ := if 0 < reqTotal then (reqErrors : ℚ) / (reqTotal : ℚ) else 0
  if memThr < memUsage ∨ errThr < errorRate ∨ 2 * rtThr < avgResponseTime then .critical
  else if (8 / 10) * memThr < memUsage ∨ (1 / 2) * errThr < errorRate ∨
      rtThr < avgResponseTime then .warning
  else .healthy

/-! ### Error handler (src/error-handler.js) -/

/-- The shape of a JS error as observed by shouldRetry: its name, its
optional code property, and whether it is an McpError carrying
ErrorCode.InvalidRequest. -/
structure JsError where
  name : String
  code : Option String
  mcpInvalidRequest : Bool
deriving DecidableEq, Repr

/-- ErrorHandler.shouldRetry. -/
def shouldRetry (e : JsError) : Bool :=
  if e.name == "ValidationError" then false
  else if e.mcpInvalidRequest then false
  else if e.code == some "ENOTFOUND" || e.code == some "ECONNREFUSED" ||
      e.code == some "ETIMEDOUT" then true
  else if e.name == "TimeoutError" then true
  else false

/-- The attempt loop of ErrorHandler.wrapWithErrorHandling for options
{retries, circuitBreaker: false, fallback: null}: fn attempt is the
outcome of the (attempt+1)-th invocation under the sequential semantics
(the timeout race is the identity on promptly settling promises).
Returns the final outcome and the number of invocations of fn. -/
def attemptLoop {α : Type} (fn : Nat → Except JsError α) (retries : Nat) (attempt : Nat)
    (invoked : Nat) : Except JsError α × Nat :=
  match fn attempt with
  | .ok v => (.ok v, invoked + 1)
  | .error e =>
    if attempt < retries && shouldRetry e then
      attemptLoop fn retries (attempt + 1) (invoked + 1)
    else
      (.error e, invoked + 1)
termination_by retries - attempt
decreasing_by
  simp_all only [Bool.and_eq_true, decide_eq_true_eq]
  omega

/-- A call of the wrapped function: the retry loop started at attempt 0
(the final transformError step is dropped since it does not change
which variant is returned nor the invocation count). -/
def wrapRetry {α : Type} (fn : Nat → Except JsError α) (retries : Nat) :
    Except JsError α × Nat :=
  attemptLoop fn retries 0 0

/-- Circuit breaker record (this.circuitBreakers values). -/
structure Breaker where
  failures : Nat
  state : String
  lastFailure : Nat
  threshold : Nat
  timeout : Nat
deriving DecidableEq, Repr

/-- The default breaker created on first failure. -/
def defaultBreaker : Breaker :=
  { failures := 0, state := "closed", lastFailure := 0, threshold := 5, timeout := 60000 }

/-- ErrorHandler.isCircuitOpen, which may flip an open breaker to
half-open when the cool-down has elapsed; returns the updated breaker
map entry and the decision. -/
def isCircuitOpen (b : Option Breaker) (now : Nat) : Option Breaker × Bool :=
  match b with
  | none => (none, false)
  | some br =>
    if br.state == "open" then
      if br.timeout < now - br.lastFailure then
        (some { br with state := "half-open" }, false)
      else (some br, true)
    else (some br, false)

/-- ErrorHandler.recordCircuitBreakerFailure. -/
def recordCircuitBreakerFailure (b : Option Breaker) (now : Nat) : Breaker :=
  let br := b.getD defaultBreaker
  let br := { br with failures := br.failures + 1, lastFailure := now }
  if br.threshold ≤ br.failures then { br with state := "open" } else br

/-- ErrorHandler.resetCircuitBreaker. -/
def resetCircuitBreaker (b : Option Breaker) : Option Breaker :=
  match b with
  | none => none
  | some br => some { br with failures := 0, state := "closed" }

/-- Result of one invocation of a function wrapped with
{circuitBreaker: true, retries: 0}. -/
inductive CBOutcome where
  | rejected
  | succeeded
  | failed
deriving DecidableEq, Repr

/-- One sequential invocation of the circuit-breaker-wrapped operation
at time now, where ok tells whether the underlying function would
succeed.  Returns the breaker state afterwards, the outcome, and
whether the underlying function was invoked. -/
def cbInvoke (b : Option Breaker) (now : Nat) (ok : Bool) :
    Option Breaker × CBOutcome × Bool :=
  let (b, opened) := isCircuitOpen b now
  if opened then (b, .rejected, false)
  else if ok then (resetCircuitBreaker b, .succeeded, true)
  else (some (recordCircuitBreakerFailure b now), .failed, true)

/-- A sequence of failing invocations at the given times. -/
def cbFailuresAt (b : Option Breaker) (times : List Nat) : Option Breaker :=
  times.foldl (fun acc t => (cbInvoke acc t false).1) b

/-! ### Activity streamer (src/activity-streamer.js)

Stream ids are modelled by a counter in place of uuidv4; events are
opaque payloads (formatting is a per-event pure function and does not
affect which streams receive an event).  sendEventToStream may throw
while formatting or emitting; this possibility is abstracted by the
fail oracle.  Emissions are collected as (streamId, event) pairs. -/

/-- A stream registration (stream config object). -/
structure StreamRec where
  sessionId : String
  isActive : Bool
  eventCount : Nat
deriving DecidableEq, Repr

/-- The mutable state of an ActivityStreamer instance. -/
structure ASState where
  streams : List (Nat × StreamRec)
  sessionStreams : List (String × List Nat)
  eventBuffer : List (String × List Nat)
  bufferSize : Nat
  nextStreamId : Nat
deriving Repr

/-- The constructor with options.bufferSize || 100. -/
def mkStreamer (bufferSize : Option Nat) : ASState :=
  { streams := []
    sessionStreams := []
    eventBuffer := []
    bufferSize := match bufferSize with
      | none => 100
      | some n => if n = 0 then 100 else n
    nextStreamId := 0 }

/-- ActivityStreamer.stopStream: remove the stream from the session
subscriber set and from the stream map (no-op for unknown ids). -/
def stopStream (st : ASState) (streamId : Nat) : ASState :=
  match alookup streamId st.streams with
  | none => st
  | some s =>
    let remaining := ((alookup s.sessionId st.sessionStreams).getD []).filter (· ≠ streamId)
    let sessionStreams :=
      if remaining = [] then mapDelete st.sessionStreams s.sessionId
      else mapSet st.sessionStreams s.sessionId remaining
    { st with
      sessionStreams := sessionStreams
      streams := mapDelete st.streams streamId }

/-- ActivityStreamer.addToEventBuffer (push then shift once past the
cap). -/
def addToEventBuffer (st : ASState) (sessionId : String) (ev : Nat) : ASState :=
  let buffer := (alookup sessionId st.eventBuffer).getD []
  let buffer := buffer ++ [ev]
  let buffer := if st.bufferSize < buffer.length then buffer.tail else buffer
  { st with eventBuffer := mapSet st.eventBuffer sessionId buffer }

/-- The per-stream step of the broadcast loop: skip missing or inactive
streams, deliver and bump eventCount on success, stop the stream when
sendEventToStream throws (fail streamId = true). -/
def broadcastStep (fail : Nat → Bool) (ev : Nat) (acc : ASState × List (Nat × Nat))
    (streamId : Nat) : ASState × List (Nat × Nat) :=
  let (st, outs) := acc
  match alookup streamId st.streams with
  | none => (st, outs)
  | some s =>
    if !s.isActive then (st, outs)
    else if fail streamId then (stopStream st streamId, outs)
    else
      ({ st with streams := mapSet st.streams streamId { s with eventCount := s.eventCount + 1 } },
       outs ++ [(streamId, ev)])

/-- ActivityStreamer.broadcastEvent: buffer the event, then deliver it
to every active stream of the session; a delivery failure stops only
that stream and is not rethrown (the function always returns). -/
def broadcastEvent (fail : Nat → Bool) (st : ASState) (sessionId : String) (ev : Nat) :
    ASState × List (Nat × Nat) :=
  let st := addToEventBuffer st sessionId ev
  match alookup sessionId st.sessionStreams with
  | none => (st, [])
  | some ids =>
    if ids.isEmpty then (st, [])
    else ids.foldl (broadcastStep fail ev) (st, [])

/-- The replay loop body: deliver buffered events in order, stopping at
the first failure (the catch-then-break in replayRecentEvents). -/
def replayLoop (fail : Nat → Bool) (streamId : Nat) : List Nat → List (Nat × Nat)
  | [] => []
  | ev :: rest =>
    if fail streamId then []
    else (streamId, ev) :: replayLoop fail streamId rest

/-- ActivityStreamer.replayRecentEvents: the last 20 buffered events of
the session, sent through sendEventToStream (the stream just started is
present and active, so each send emits unless it throws). -/
def replayRecentEvents (fail : Nat → Bool) (st : ASState) (streamId : Nat)
    (sessionId : String) : List (Nat × Nat) :=
  match alookup sessionId st.eventBuffer with
  | none => []
  | some buffer =>
    if buffer.isEmpty then []
    else replayLoop fail streamId (rtake buffer 20)

/-- ActivityStreamer.startStream: register the subscription, then
replay recent buffered events to it.  Returns the new state, the stream
id and the replayed emissions. -/
def startStream (fail : Nat → Bool) (st : ASState) (sessionId : String) :
    ASState × Nat × List (Nat × Nat) :=
  let streamId := st.nextStreamId
  let st := { st with
    streams := mapSet st.streams streamId
      { sessionId := sessionId, isActive := true, eventCount := 0 }
    sessionStreams :=
      mapSet st.sessionStreams sessionId
        (((alookup sessionId st.sessionStreams).getD []) ++ [streamId])
    nextStreamId := st.nextStreamId + 1 }
  let replayed := replayRecentEvents fail st streamId sessionId
  (st, streamId, replayed)

/-- Broadcasting a list of events to one session in order, collecting
every emission. -/
def broadcastAll (fail : Nat → Bool) (st : ASState) (sessionId : String) (evs : List Nat) :
    ASState × List (Nat × Nat) :=
  evs.foldl
    (fun acc ev =>
      let r := broadcastEvent fail acc.1 sessionId ev
      (r.1, acc.2 ++ r.2))
    (st, [])

/-- A minimal input event used for concrete instances. -/
def mkIn (ty status : String) (pid : Option String) : InEvent :=
  { timestamp := "2024-01-01T00:00:00Z"
    event_type := ty
    status := status
    duration_ms := none
    parent_id := pid
    correlation_id := none
    name := none
    description := none
    task_name := none }

/-! ### Helper lemmas about the map and list embeddings -/

theorem alookup_append_left {κ β : Type} [DecidableEq κ] (k : κ) :
    ∀ (l m : List (κ × β)), (alookup k l).isSome → alookup k (l ++ m) = alookup k l
  | [], _, h => by simp [alookup] at h
  | ⟨pk, pv⟩ :: rest, m, h => by
    by_cases hk : pk = k
    · subst hk
      simp [alookup]
    · rw [alookup, if_neg hk] at h
      rw [List.cons_append, alookup, if_neg hk, alookup, if_neg hk]
      exact alookup_append_left k rest m h

theorem alookup_append_singleton {κ β : Type} [DecidableEq κ] (k k2 : κ) (v : β)
    (h : k2 ≠ k) : ∀ l : List (κ × β), alookup k2 (l ++ [(k, v)]) = alookup k2 l
  | [] => by
    have : k ≠ k2 := fun hc => h hc.symm
    simp [alookup, this]
  | ⟨pk, pv⟩ :: rest => by
    by_cases hk2 : pk = k2
    · subst hk2
      simp [alookup]
    · rw [List.cons_append, alookup, if_neg hk2, alookup, if_neg hk2]
      exact alookup_append_singleton k k2 v h rest

theorem alookup_eq_none_of_not_mem {κ β : Type} [DecidableEq κ] (k : κ) :
    ∀ l : List (κ × β), k ∉ l.map Prod.fst → alookup k l = none
  | [], _ => rfl
  | ⟨pk, pv⟩ :: rest, h => by
    simp only [List.map_cons, List.mem_cons] at h
    push_neg at h
    have hk : pk ≠ k := fun hc => h.1 hc.symm
    rw [alookup, if_neg hk]
    exact alookup_eq_none_of_not_mem k rest h.2

theorem alookup_upd_self {κ β : Type} [DecidableEq κ] (k : κ) (v : β) :
    ∀ l : List (κ × β), (alookup k l).isSome →
      alookup k (l.map (fun p => if p.1 = k then (p.1, v) else p)) = some v
  | [], h => by simp [alookup] at h
  | ⟨pk, pv⟩ :: rest, h => by
    by_cases hk : pk = k
    · subst hk
      simp only [List.map_cons, if_true]
      simp [alookup]
    · rw [alookup, if_neg hk] at h
      simp only [List.map_cons]
      rw [if_neg hk, alookup, if_neg hk]
      exact alookup_upd_self k v rest h

theorem alookup_upd_other {κ β : Type} [DecidableEq κ] (k k2 : κ) (v : β) (h : k2 ≠ k) :
    ∀ l : List (κ × β),
      alookup k2 (l.map (fun p => if p.1 = k then (p.1, v) else p)) = alookup k2 l
  | [] => rfl
  | ⟨pk, pv⟩ :: rest => by
    by_cases hk : pk = k
    · subst hk
      have hne : pk ≠ k2 := fun hc => h hc.symm
      simp only [List.map_cons, if_true]
      rw [alookup, if_neg hne, alookup, if_neg hne]
      exact alookup_upd_other pk k2 v h rest
    · by_cases hk2 : pk = k2
      · subst hk2
        simp only [List.map_cons]
        rw [if_neg hk, alookup, if_pos rfl, alookup, if_pos rfl]
      · simp only [List.map_cons]
        rw [if_neg hk, alookup, if_neg hk2, alookup, if_neg hk2]
        exact alookup_upd_other k k2 v h rest

theorem alookup_mapSet_self {κ β : Type} [DecidableEq κ] (l : List (κ × β)) (k : κ) (v : β) :
    alookup k (mapSet l k v) = some v := by
  unfold mapSet
  by_cases h : (alookup k l).isSome
  · rw [if_pos h]
    exact alookup_upd_self k v l h
  · rw [if_neg h]
    rw [Option.not_isSome_iff_eq_none] at h
    induction l with
    | nil => simp [alookup]
    | cons p rest ih =>
      obtain ⟨pk, pv⟩ := p
      by_cases hk : pk = k
      · rw [alookup, if_pos hk] at h
        simp at h
      · rw [alookup, if_neg hk] at h
        rw [List.cons_append, alookup, if_neg hk]
        exact ih h

theorem alookup_mapSet_other {κ β : Type} [DecidableEq κ] (l : List (κ × β)) (k k2 : κ) (v : β)
    (h : k2 ≠ k) : alookup k2 (mapSet l k v) = alookup k2 l := by
  unfold mapSet
  by_cases hs : (alookup k l).isSome
  · rw [if_pos hs]
    exact alookup_upd_other k k2 v h l
  · rw [if_neg hs]
    exact alookup_append_singleton k k2 v h l

theorem alookup_mapDelete_self {κ β : Type} [DecidableEq κ] (k : κ) :
    ∀ l : List (κ × β), alookup k (mapDelete l k) = none
  | [] => rfl
  | ⟨pk, pv⟩ :: rest => by
    by_cases hk : pk = k
    · subst hk
      simpa [mapDelete] using alookup_mapDelete_self pk rest
    · have : ((pk, pv) :: rest).filter (fun p => p.1 ≠ k) =
        (pk, pv) :: rest.filter (fun p => p.1 ≠ k) := by
        simp [List.filter_cons, hk]
      rw [mapDelete, this, alookup, if_neg hk]
      exact alookup_mapDelete_self k rest

theorem alookup_mapDelete_other {κ β : Type} [DecidableEq κ] (k k2 : κ) (h : k2 ≠ k) :
    ∀ l : List (κ × β), alookup k2 (mapDelete l k) = alookup k2 l
  | [] => rfl
  | ⟨pk, pv⟩ :: rest => by
    by_cases hk : pk = k
    · subst hk
      have hne : pk ≠ k2 := fun hc => h hc.symm
      rw [mapDelete]
      have : ((pk, pv) :: rest).filter (fun p => p.1 ≠ pk) =
          rest.filter (fun p => p.1 ≠ pk) := by
        simp [List.filter_cons]
      rw [this, alookup, if_neg hne]
      exact alookup_mapDelete_other pk k2 h rest
    · have : ((pk, pv) :: rest).filter (fun p => p.1 ≠ k) =
          (pk, pv) :: rest.filter (fun p => p.1 ≠ k) := by
        simp [List.filter_cons, hk]
      rw [mapDelete, this]
      by_cases hk2 : pk = k2
      · subst hk2
        rw [alookup, if_pos rfl, alookup, if_pos rfl]
      · rw [alookup, if_neg hk2, alookup, if_neg hk2]
        exact alookup_mapDelete_other k k2 h rest

theorem rtake_length_le {α : Type} (l : List α) (n : Nat) (h : l.length ≤ n) :
    rtake l n = l := by
  unfold rtake
  rw [Nat.sub_eq_zero_of_le h, List.drop_zero]

theorem rtake_length {α : Type} (l : List α) (n : Nat) :
    (rtake l n).length = min n l.length := by
  unfold rtake
  rw [List.length_drop]
  omega

theorem rtake_rtake {α : Type} (l : List α) (m n : Nat) (h : m ≤ n) :
    rtake (rtake l n) m = rtake l m := by
  unfold rtake
  rw [List.drop_drop, List.length_drop]
  congr 1
  omega

theorem push_shift_eq_rtake {α : Type} (evs : List α) (x : α) (cap : Nat)
    (h : evs.length ≤ cap) (h1 : 1 ≤ cap) :
    (if cap < (evs ++ [x]).length then (evs ++ [x]).tail else evs ++ [x])
      = rtake (evs ++ [x]) cap := by
  rw [List.length_append, List.length_singleton]
  by_cases hc : cap < evs.length + 1
  · have hlen : evs.length = cap := by omega
    rw [if_pos hc]
    unfold rtake
    rw [List.length_append, List.length_singleton, hlen,
      show cap + 1 - cap = 1 by omega, List.drop_one]
  · rw [if_neg hc]
    refine (rtake_length_le _ _ ?_).symm
    rw [List.length_append, List.length_singleton]
    omega

theorem rtake_snoc_of_lt {α : Type} (l : List α) (x : α) (n : Nat) (h : l.length < n) :
    rtake (l ++ [x]) n = l ++ [x] := by
  apply rtake_length_le
  rw [List.length_append]
  simpa using h

theorem rtake_append {α : Type} (l m : List α) (n : Nat) (h : n ≤ m.length) :
    rtake (l ++ m) n = rtake m n := by
  unfold rtake
  rw [List.length_append]
  rw [show l.length + m.length - n = l.length + (m.length - n) by omega]
  rw [List.drop_append_eq_append_drop]
  rw [show l.length + (m.length - n) - l.length = m.length - n by omega]
  simp

theorem rtake_eq_rev {α : Type} (l : List α) (n : Nat) :
    rtake l n = (l.reverse.take n).reverse := by
  have h := List.rtake_eq_reverse_take_reverse (l := l) (n := n)
  simpa [List.rtake, rtake] using h

theorem take_append_take {α : Type} (n : Nat) (a b : List α) :
    (a ++ b.take n).take n = (a ++ b).take n := by
  rw [List.take_append_eq_append_take, List.take_append_eq_append_take, List.take_take]
  congr 1
  rw [Nat.min_eq_left (Nat.sub_le n a.length)]

theorem rtake_rtake_append {α : Type} (l m : List α) (cap : Nat) :
    rtake (rtake l cap ++ m) cap = rtake (l ++ m) cap := by
  simp only [rtake_eq_rev, List.reverse_append, List.reverse_reverse]
  rw [take_append_take]

theorem storedFrom_length (now : String) : ∀ (n0 : Nat) (es : List InEvent),
    (storedFrom n0 now es).length = es.length
  | _, [] => rfl
  | n0, _ :: rest => by
    simp [storedFrom, storedFrom_length now (n0 + 1) rest]

theorem getSessionEvents_noFilter (tsGe : String → String → Bool) (st : SMState)
    (sid : String) :
    getSessionEvents tsGe st sid noFilter = (alookup sid st.sessionEvents).getD [] := rfl

theorem updateSession_sessionEvents (st : SMState) (sid : String) (event : StoredEvent) :
    (updateSessionFromEvent st sid event).sessionEvents = st.sessionEvents := by
  unfold updateSessionFromEvent
  cases alookup sid st.sessions <;> rfl

theorem updateSession_maxEvents (st : SMState) (sid : String) (event : StoredEvent) :
    (updateSessionFromEvent st sid event).maxEventsPerSession = st.maxEventsPerSession := by
  unfold updateSessionFromEvent
  cases alookup sid st.sessions <;> rfl

theorem updateSession_nextId (st : SMState) (sid : String) (event : StoredEvent) :
    (updateSessionFromEvent st sid event).nextId = st.nextId := by
  unfold updateSessionFromEvent
  cases alookup sid st.sessions <;> rfl

theorem updateSession_sessions_isSome (st : SMState) (sid : String) (event : StoredEvent) :
    (alookup sid (updateSessionFromEvent st sid event).sessions).isSome
      = (alookup sid st.sessions).isSome := by
  unfold updateSessionFromEvent
  cases h : alookup sid st.sessions
  · simp [h]
  · simp [alookup_mapSet_self, h]

theorem addEvent_step (st : SMState) (sid : String) (e : InEvent) (now : String)
    (evs : List StoredEvent)
    (hs : (alookup sid st.sessions).isSome)
    (he : alookup sid st.sessionEvents = some evs) :
    alookup sid (addEvent st sid e now).1.sessionEvents
      = some (if st.maxEventsPerSession < (evs ++ [mkStored st.nextId e now]).length
          then (evs ++ [mkStored st.nextId e now]).tail
          else evs ++ [mkStored st.nextId e now])
    ∧ (alookup sid (addEvent st sid e now).1.sessions).isSome
    ∧ (addEvent st sid e now).1.nextId = st.nextId + 1
    ∧ (addEvent st sid e now).1.maxEventsPerSession = st.maxEventsPerSession := by
  unfold addEvent
  simp only [hs, if_true, he]
  refine ⟨?_, ?_, ?_, ?_⟩
  · simp [updateSession_sessionEvents, alookup_mapSet_self]
  · simp [updateSession_sessions_isSome, hs]
  · simp [updateSession_nextId]
  · simp [updateSession_maxEvents]

theorem addEvent_create (st : SMState) (sid : String) (e : InEvent) (now : String)
    (hs : alookup sid st.sessions = none)
    (he : alookup sid st.sessionEvents = none)
    (hcap : 1 ≤ st.maxEventsPerSession) :
    alookup sid (addEvent st sid e now).1.sessionEvents = some [mkStored st.nextId e now]
    ∧ (alookup sid (addEvent st sid e now).1.sessions).isSome
    ∧ (addEvent st sid e now).1.nextId = st.nextId + 1
    ∧ (addEvent st sid e now).1.maxEventsPerSession = st.maxEventsPerSession := by
  unfold addEvent smCreateSession
  simp only [hs, Option.isSome_none, Bool.false_eq_true, if_false]
  simp only [alookup_mapSet_self]
  have hshift : ¬ (st.maxEventsPerSession < ([] ++ [mkStored st.nextId e now]).length) := by
    simp
    omega
  have hne : ¬ st.maxEventsPerSession = 0 := by omega
  refine ⟨?_, ?_, ?_, ?_⟩
  · simp only [List.nil_append] at hshift ⊢
    simp [hshift, hne, updateSession_sessionEvents, alookup_mapSet_self]
  · simp [updateSession_sessions_isSome, alookup_mapSet_self]
  · simp [updateSession_nextId]
  · simp [updateSession_maxEvents]

theorem addEvents_history (sid : String) (now : String) :
    ∀ (es : List InEvent) (st : SMState) (evs : List StoredEvent),
      alookup sid st.sessionEvents = some evs →
      (alookup sid st.sessions).isSome →
      evs.length ≤ st.maxEventsPerSession →
      1 ≤ st.maxEventsPerSession →
      alookup sid (addEvents st sid es now).sessionEvents
        = some (rtake (evs ++ storedFrom st.nextId now es) st.maxEventsPerSession)
      ∧ (addEvents st sid es now).maxEventsPerSession = st.maxEventsPerSession
  | [], st, evs, he, _, hlen, _ => by
    refine ⟨?_, rfl⟩
    simpa [addEvents, storedFrom] using congrArg some (rtake_length_le evs _ hlen).symm ▸
      (by simpa [addEvents, storedFrom, rtake_length_le evs _ hlen] using he)
  | e :: rest, st, evs, he, hs, hlen, hcap => by
    obtain ⟨h1, h2, h3, h4⟩ := addEvent_step st sid e now evs hs he
    rw [push_shift_eq_rtake evs (mkStored st.nextId e now) st.maxEventsPerSession hlen hcap]
      at h1
    have hlen1 : (rtake (evs ++ [mkStored st.nextId e now]) st.maxEventsPerSession).length
        ≤ (addEvent st sid e now).1.maxEventsPerSession := by
      rw [h4, rtake_length]
      exact Nat.min_le_left _ _
    have hcap1 : 1 ≤ (addEvent st sid e now).1.maxEventsPerSession := by
      rw [h4]; exact hcap
    have IH := addEvents_history sid now rest (addEvent st sid e now).1 _ h1 h2 hlen1 hcap1
    have hfold : addEvents st sid (e :: rest) now
        = addEvents (addEvent st sid e now).1 sid rest now := rfl
    rw [hfold]
    refine ⟨?_, by rw [IH.2, h4]⟩
    have := IH.1
    rw [h3, h4, rtake_rtake_append, List.append_assoc, List.singleton_append] at this
    rw [this]
    rfl


/-! ### C1: bounded per-session history -/

/-- C1: for every session with configured history cap (default 1000),
after adding cap + k events to that session via addEvent,
getSessionEvents with no filter returns exactly cap events, and they
are the most recent cap in insertion order — the earliest k stored
events have been evicted. -/
theorem bounded_history_c1 (capOpt : Option Nat) (sid now : String)
    (tsGe : String → String → Bool) (es : List InEvent) (k : Nat)
    (hlen : es.length = (mkSessionManager capOpt).maxEventsPerSession + k) :
    getSessionEvents tsGe (addEvents (mkSessionManager capOpt) sid es now) sid noFilter
      = (storedFrom 0 now es).drop k
    ∧ (getSessionEvents tsGe (addEvents (mkSessionManager capOpt) sid es now) sid
        noFilter).length = (mkSessionManager capOpt).maxEventsPerSession := by
  have hcap : 1 ≤ (mkSessionManager capOpt).maxEventsPerSession := by
    cases capOpt with
    | none => simp [mkSessionManager]
    | some n =>
      by_cases hn : n = 0 <;> simp [mkSessionManager, hn] <;> omega
  cases es with
  | nil =>
    simp only [List.length_nil] at hlen
    omega
  | cons e rest =>
    obtain ⟨h1, h2, h3, h4⟩ := addEvent_create (mkSessionManager capOpt) sid e now rfl rfl hcap
    have hlen1 : ([mkStored (mkSessionManager capOpt).nextId e now]).length
        ≤ (addEvent (mkSessionManager capOpt) sid e now).1.maxEventsPerSession := by
      rw [h4]
      simpa using hcap
    have IH := addEvents_history sid now rest (addEvent (mkSessionManager capOpt) sid e now).1
      _ h1 h2 hlen1 (by rw [h4]; exact hcap)
    have hfold : addEvents (mkSessionManager capOpt) sid (e :: rest) now
        = addEvents (addEvent (mkSessionManager capOpt) sid e now).1 sid rest now := rfl
    have hn0 : (mkSessionManager capOpt).nextId = 0 := rfl
    have hfin : alookup sid
        (addEvents (mkSessionManager capOpt) sid (e :: rest) now).sessionEvents
        = some (rtake (storedFrom 0 now (e :: rest))
            (mkSessionManager capOpt).maxEventsPerSession) := by
      rw [hfold]
      have hh := IH.1
      rw [h3, h4, hn0] at hh
      rw [hh]
      rfl
    have hslen : (storedFrom 0 now (e :: rest)).length
        = (mkSessionManager capOpt).maxEventsPerSession + k := by
      rw [storedFrom_length]
      exact hlen
    rw [getSessionEvents_noFilter, hfin]
    simp only [Option.getD_some]
    constructor
    · unfold rtake
      rw [hslen]
      congr 1
      omega
    · rw [rtake_length, hslen]
      exact Nat.min_eq_left (Nat.le_add_right _ _)

/-- Witness for C1 at cap 2, k = 1 (three insertions). -/
theorem bounded_history_c1_witness :
    ([mkIn "task_started" "started" none, mkIn "tool_pre_call" "started" none,
      mkIn "tool_post_call" "success" none] : List InEvent).length
      = (mkSessionManager (some 2)).maxEventsPerSession + 1
    ∧ (getSessionEvents (fun _ _ => true)
        (addEvents (mkSessionManager (some 2)) "s"
          [mkIn "task_started" "started" none, mkIn "tool_pre_call" "started" none,
           mkIn "tool_post_call" "success" none] "now") "s" noFilter
        = (storedFrom 0 "now"
            [mkIn "task_started" "started" none, mkIn "tool_pre_call" "started" none,
             mkIn "tool_post_call" "success" none]).drop 1
      ∧ (getSessionEvents (fun _ _ => true)
          (addEvents (mkSessionManager (some 2)) "s"
            [mkIn "task_started" "started" none, mkIn "tool_pre_call" "started" none,
             mkIn "tool_post_call" "success" none] "now") "s" noFilter).length
        = (mkSessionManager (some 2)).maxEventsPerSession) :=
  ⟨rfl, bounded_history_c1 (some 2) "s" "now" (fun _ _ => true)
    [mkIn "task_started" "started" none, mkIn "tool_pre_call" "started" none,
     mkIn "tool_post_call" "success" none] 1 rfl⟩

/-! ### C2: automatic session status transitions -/

theorem updateSession_status_trans (st : SMState) (sid : String) (event : StoredEvent)
    (sess : Session) (hs : alookup sid st.sessions = some sess) :
    ∃ sess2, alookup sid (updateSessionFromEvent st sid event).sessions = some sess2
      ∧ (event.event_type = "task_started" → sess2.status = "active")
      ∧ (event.event_type = "task_complete" →
          (sess2.active_operations = [] → sess2.status = "completed")
          ∧ (sess2.active_operations ≠ [] → sess2.status = sess.status))
      ∧ (event.event_type = "task_failed" → sess2.status = "failed") := by
  unfold updateSessionFromEvent
  rw [hs]
  refine ⟨_, alookup_mapSet_self _ _ _, ?_, ?_, ?_⟩
  · intro h
    simp [h]
  · intro h
    have ht : jsStartsWith "task_complete" "tool_" = false := by decide
    have hm : jsStartsWith "task_complete" "mcp_" = false := by decide
    simp only [h, ht, hm, Bool.false_and, Bool.false_eq_true, if_false,
      show (("task_complete" : String) == "task_started") = false from rfl,
      show (("task_complete" : String) == "task_complete") = true from rfl, if_true]
    split_ifs <;> constructor <;> intro h0 <;> (try simp_all) <;>
      (try (obtain ⟨x, hx, hneq⟩ := ‹∃ x ∈ sess.active_operations, ¬x.id = event.id›
            exact absurd (h0 x hx) hneq))
  · intro h
    simp [h]

/-- C2: processing an event through addEvent moves the session status
as follows — task_started sets it to active; task_complete sets it to
completed only when active_operations is empty after that event's own
active-operation update and otherwise leaves it unchanged; task_failed
sets it to failed unconditionally. -/
theorem status_transitions_c2 (st : SMState) (sid : String) (e : InEvent) (now : String)
    (sess : Session) (evs : List StoredEvent)
    (hs : alookup sid st.sessions = some sess)
    (he : alookup sid st.sessionEvents = some evs) :
    ∃ sess2, alookup sid (addEvent st sid e now).1.sessions = some sess2
      ∧ (e.event_type = "task_started" → sess2.status = "active")
      ∧ (e.event_type = "task_complete" →
          (sess2.active_operations = [] → sess2.status = "completed")
          ∧ (sess2.active_operations ≠ [] → sess2.status = sess.status))
      ∧ (e.event_type = "task_failed" → sess2.status = "failed") := by
  unfold addEvent
  simp only [hs, Option.isSome_some, if_true, he]
  exact updateSession_status_trans _ sid (mkStored st.nextId e now) sess hs

/-- Witness for C2 on a one-session state. -/
theorem status_transitions_c2_witness :
    alookup "s" (SMState.mk [("s", createSessionRecord "s" "T" "now")] [("s", [])] 1000
      0).sessions = some (createSessionRecord "s" "T" "now")
    ∧ alookup "s" (SMState.mk [("s", createSessionRecord "s" "T" "now")] [("s", [])] 1000
        0).sessionEvents = some []
    ∧ (∃ sess2, alookup "s" (addEvent (SMState.mk [("s", createSessionRecord "s" "T" "now")]
          [("s", [])] 1000 0) "s" (mkIn "task_complete" "success" none) "now").1.sessions
          = some sess2
        ∧ ((mkIn "task_complete" "success" none).event_type = "task_started" →
            sess2.status = "active")
        ∧ ((mkIn "task_complete" "success" none).event_type = "task_complete" →
            (sess2.active_operations = [] → sess2.status = "completed")
            ∧ (sess2.active_operations ≠ [] →
                sess2.status = (createSessionRecord "s" "T" "now").status))
        ∧ ((mkIn "task_complete" "success" none).event_type = "task_failed" →
            sess2.status = "failed")) :=
  ⟨rfl, rfl,
    status_transitions_c2 (SMState.mk [("s", createSessionRecord "s" "T" "now")]
      [("s", [])] 1000 0) "s" (mkIn "task_complete" "success" none) "now"
      (createSessionRecord "s" "T" "now") [] rfl rfl⟩


/-! ### C3: circuit breaker -/

/-- C3: with the circuit breaker enabled (default threshold 5, default
cool-down 60s), five consecutive failing invocations open the breaker;
the sixth invocation within the cool-down fails immediately without
invoking the wrapped function; once the cool-down since the last
failure has elapsed the next call is let through (half-open) and
invokes the function; a success then resets the breaker to closed, and
a failure reopens it so that a further call within the new cool-down is
again rejected without invocation. -/
theorem circuit_breaker_c3 (t1 t2 t3 t4 t5 t6 t7 t8 : Nat) (ok7 : Bool)
    (h6 : t6 - t5 ≤ 60000) (h7 : 60000 < t7 - t5) (h8 : t8 - t7 ≤ 60000) :
    cbFailuresAt none [t1, t2, t3, t4, t5]
      = some { failures := 5, state := "open", lastFailure := t5, threshold := 5, timeout := 60000 }
    ∧ cbInvoke (cbFailuresAt none [t1, t2, t3, t4, t5]) t6 false
      = (cbFailuresAt none [t1, t2, t3, t4, t5], CBOutcome.rejected, false)
    ∧ (cbInvoke (cbFailuresAt none [t1, t2, t3, t4, t5]) t7 ok7).2.2 = true
    ∧ (cbInvoke (cbFailuresAt none [t1, t2, t3, t4, t5]) t7 true).1
      = some { failures := 0, state := "closed", lastFailure := t5, threshold := 5, timeout := 60000 }
    ∧ cbInvoke (cbInvoke (cbFailuresAt none [t1, t2, t3, t4, t5]) t7 false).1 t8 false
      = ((cbInvoke (cbFailuresAt none [t1, t2, t3, t4, t5]) t7 false).1,
         CBOutcome.rejected, false) := by
  have hb : cbFailuresAt none [t1, t2, t3, t4, t5]
      = some { failures := 5, state := "open", lastFailure := t5, threshold := 5, timeout := 60000 } := by
    simp [cbFailuresAt, cbInvoke, isCircuitOpen, recordCircuitBreakerFailure, defaultBreaker]
  have hno6 : ¬ (60000 < t6 - t5) := by omega
  have hno8 : ¬ (60000 < t8 - t7) := by omega
  refine ⟨hb, ?_, ?_, ?_, ?_⟩
  · rw [hb]
    simp [cbInvoke, isCircuitOpen, hno6]
  · rw [hb]
    cases ok7 <;>
      simp [cbInvoke, isCircuitOpen, h7, resetCircuitBreaker, recordCircuitBreakerFailure]
  · rw [hb]
    simp [cbInvoke, isCircuitOpen, h7, resetCircuitBreaker]
  · rw [hb]
    have hb7 : (cbInvoke (some { failures := 5, state := "open", lastFailure := t5, threshold := 5, timeout := 60000 }) t7 false).1
        = some { failures := 6, state := "open", lastFailure := t7, threshold := 5, timeout := 60000 } := by
      simp [cbInvoke, isCircuitOpen, h7, recordCircuitBreakerFailure]
    rw [hb7]
    simp [cbInvoke, isCircuitOpen, hno8]

/-- Witness for C3 at failure times 0..4, probes at 5, 70000, 70001. -/
theorem circuit_breaker_c3_witness :
    ((5 : Nat) - 4 ≤ 60000 ∧ (60000 : Nat) < 70000 - 4 ∧ (70001 : Nat) - 70000 ≤ 60000)
    ∧ (cbFailuresAt none [0, 1, 2, 3, 4]
        = some { failures := 5, state := "open", lastFailure := 4, threshold := 5, timeout := 60000 }
      ∧ cbInvoke (cbFailuresAt none [0, 1, 2, 3, 4]) 5 false
        = (cbFailuresAt none [0, 1, 2, 3, 4], CBOutcome.rejected, false)
      ∧ (cbInvoke (cbFailuresAt none [0, 1, 2, 3, 4]) 70000 true).2.2 = true
      ∧ (cbInvoke (cbFailuresAt none [0, 1, 2, 3, 4]) 70000 true).1
        = some { failures := 0, state := "closed", lastFailure := 4, threshold := 5, timeout := 60000 }
      ∧ cbInvoke (cbInvoke (cbFailuresAt none [0, 1, 2, 3, 4]) 70000 false).1 70001 false
        = ((cbInvoke (cbFailuresAt none [0, 1, 2, 3, 4]) 70000 false).1,
           CBOutcome.rejected, false)) :=
  ⟨⟨by omega, by omega, by omega⟩,
    circuit_breaker_c3 0 1 2 3 4 5 70000 70001 true (by omega) (by omega) (by omega)⟩

/-! ### C4: retry with backoff -/

/-- C4 counterexample: a function failing its first two invocations
with ValidationError and succeeding on the third, wrapped with
retries = 3, is invoked exactly once and the error is rethrown — the
success value is not returned and the function is not invoked 3 times,
because shouldRetry never retries validation errors. -/
theorem retry_c4_counterexample :
    (fun n => if n < 2
        then (Except.error { name := "ValidationError", code := none, mcpInvalidRequest := false } : Except JsError Nat)
        else Except.ok 42) 0
      = Except.error { name := "ValidationError", code := none, mcpInvalidRequest := false }
    ∧ (fun n => if n < 2
        then (Except.error { name := "ValidationError", code := none, mcpInvalidRequest := false } : Except JsError Nat)
        else Except.ok 42) 1
      = Except.error { name := "ValidationError", code := none, mcpInvalidRequest := false }
    ∧ (fun n => if n < 2
        then (Except.error { name := "ValidationError", code := none, mcpInvalidRequest := false } : Except JsError Nat)
        else Except.ok 42) 2
      = Except.ok 42
    ∧ wrapRetry (fun n => if n < 2
        then (Except.error { name := "ValidationError", code := none, mcpInvalidRequest := false } : Except JsError Nat)
        else Except.ok 42) 3
      = (Except.error { name := "ValidationError", code := none, mcpInvalidRequest := false }, 1) := by
  refine ⟨rfl, rfl, rfl, ?_⟩
  rw [wrapRetry, attemptLoop]
  simp [shouldRetry]

/-- C4 amended: a function that fails on its first two invocations with
retryable errors (per shouldRetry: network codes or TimeoutError) and
succeeds on the third, wrapped with retries = 3, returns the success
value and the underlying function is invoked exactly 3 times. -/
theorem retry_c4_amended {α : Type} (fn : Nat → Except JsError α) (e0 e1 : JsError) (v : α)
    (h0 : fn 0 = Except.error e0) (h1 : fn 1 = Except.error e1) (h2 : fn 2 = Except.ok v)
    (hr0 : shouldRetry e0 = true) (hr1 : shouldRetry e1 = true) :
    wrapRetry fn 3 = (Except.ok v, 3) := by
  have s0 : attemptLoop fn 3 0 0 = attemptLoop fn 3 1 1 := by
    rw [attemptLoop, h0]
    simp [hr0]
  have s1 : attemptLoop fn 3 1 1 = attemptLoop fn 3 2 2 := by
    rw [attemptLoop, h1]
    simp [hr1]
  have s2 : attemptLoop fn 3 2 2 = (Except.ok v, 3) := by
    rw [attemptLoop, h2]
  rw [wrapRetry, s0, s1, s2]

/-- Witness for C4 amended with TimeoutError failures. -/
theorem retry_c4_amended_witness :
    (fun n => if n < 2
        then (Except.error { name := "TimeoutError", code := none, mcpInvalidRequest := false } : Except JsError Nat)
        else Except.ok 42) 0
      = Except.error { name := "TimeoutError", code := none, mcpInvalidRequest := false }
    ∧ (fun n => if n < 2
        then (Except.error { name := "TimeoutError", code := none, mcpInvalidRequest := false } : Except JsError Nat)
        else Except.ok 42) 1
      = Except.error { name := "TimeoutError", code := none, mcpInvalidRequest := false }
    ∧ (fun n => if n < 2
        then (Except.error { name := "TimeoutError", code := none, mcpInvalidRequest := false } : Except JsError Nat)
        else Except.ok 42) 2
      = Except.ok 42
    ∧ shouldRetry { name := "TimeoutError", code := none, mcpInvalidRequest := false } = true
    ∧ wrapRetry (fun n => if n < 2
        then (Except.error { name := "TimeoutError", code := none, mcpInvalidRequest := false } : Except JsError Nat)
        else Except.ok 42) 3
      = (Except.ok 42, 3) :=
  ⟨rfl, rfl, rfl, rfl,
    retry_c4_amended
      (fun n => if n < 2
        then (Except.error { name := "TimeoutError", code := none, mcpInvalidRequest := false } : Except JsError Nat)
        else Except.ok 42)
      { name := "TimeoutError", code := none, mcpInvalidRequest := false }
      { name := "TimeoutError", code := none, mcpInvalidRequest := false }
      42 rfl rfl rfl rfl rfl⟩

/-! ### C8: overall health status -/

/-- C8 counterexample: with the default thresholds (memory 512, error
rate 1/20, response time 1000), an average latency of 1500 breaches its
full configured threshold, yet determineOverallHealth returns warning,
not critical — the critical comparison for latency uses twice the
configured threshold. -/
theorem health_c8_counterexample :
    determineOverallHealth 0 0 0 1500 512 (1 / 20) 1000 = Health.warning
    ∧ ((1000 : ℚ) < 1500) := by
  constructor
  · unfold determineOverallHealth
    norm_num
  · norm_num

/-- C8 amended: the overall status is max-of-severity with these bands:
critical when memory exceeds its cap, the error rate exceeds its cap,
or the average latency exceeds twice its cap; otherwise warning when
memory is past 80 percent of its cap, the error rate past 50 percent of
its cap, or the latency past its cap; otherwise healthy. -/
theorem health_c8_amended (memUsage : ℚ) (reqTotal reqErrors : Nat) (avgResponseTime : ℚ)
    (memThr errThr rtThr : ℚ) :
    determineOverallHealth memUsage reqTotal reqErrors avgResponseTime memThr errThr rtThr
      = healthSpecAmended memUsage reqTotal reqErrors avgResponseTime memThr errThr rtThr := by
  unfold determineOverallHealth healthSpecAmended
  dsimp only
  rw [show (2 : ℚ) * rtThr = rtThr * 2 from mul_comm 2 rtThr,
    show (8 / 10 : ℚ) * memThr = memThr * (8 / 10) from mul_comm _ _,
    show (1 / 2 : ℚ) * errThr = errThr * (1 / 2) from mul_comm _ _]
  split_ifs <;> first | rfl | tauto



/-! ### C5 and C6: activity tree construction -/

theorem limitRoot_snd_null (md : Nat) (nodes : List BNode) :
    (limitRoot md nodes RootTask.nullRoot).2 = RootTask.nullRoot := rfl

theorem limitRoot_snd_real (md : Nat) (nodes : List BNode) (rid : String) :
    (limitRoot md nodes (RootTask.real rid)).2 = RootTask.real rid := rfl

theorem limitRoot_snd_synth (md : Nat) (nodes : List BNode) (nm ds stt ts : String)
    (dur : Int) (cs : List String) (h : md ≠ 0) :
    (limitRoot md nodes (RootTask.synthetic nm ds stt ts dur cs)).2
      = RootTask.synthetic nm ds stt ts dur cs := by
  simp [limitRoot, h]

theorem selectRoot_empty (sess : Session) : selectRoot sess [] = RootTask.nullRoot := rfl

theorem selectRoot_task (sess : Session) (rn : List BNode) (t : BNode) (ts : List BNode)
    (h : rn.filter (fun n => jsStartsWith n.event_type "task_") = t :: ts) :
    selectRoot sess rn = RootTask.real t.id := by
  have hne : rn.isEmpty = false := by
    cases rn with
    | nil => simp at h
    | cons a l => rfl
  unfold selectRoot
  rw [hne, h]
  simp

theorem selectRoot_synth (sess : Session) (rn : List BNode) (hne : rn ≠ [])
    (h : rn.filter (fun n => jsStartsWith n.event_type "task_") = []) :
    selectRoot sess rn
      = RootTask.synthetic sess.root_task sess.root_task sess.status sess.start_time
          sess.total_duration_ms (rn.map BNode.id) := by
  have hie : rn.isEmpty = false := by
    cases rn with
    | nil => exact absurd rfl hne
    | cons a l => rfl
  unfold selectRoot
  rw [hie, h]
  simp

/-- C5 counterexample: a session whose single stored event is a
task-type event with an unresolvable parent_id.  The claim makes that
event a root candidate (no resolvable parentId) and hence the tree
root; the code treats only parentId-less events as root candidates and
returns a null root here. -/
theorem tree_root_c5_counterexample :
    (buildActivityTree (fun _ _ => true)
        (addEvents (mkSessionManager none) "s"
          [mkIn "task_started" "started" (some "missing")] "now") "s" true 5).root_task
      = RootTask.nullRoot
    ∧ (getSessionEvents (fun _ _ => true)
        (addEvents (mkSessionManager none) "s"
          [mkIn "task_started" "started" (some "missing")] "now") "s" noFilter).map
        (fun e => (e.event_type, e.parent_id, e.id))
      = [("task_started", some "missing", "uuid-0")]
    ∧ jsStartsWith "task_started" "task_" = true := by
  refine ⟨?_, ?_, ?_⟩ <;> rfl

/-- C5 amended: root candidates are the constructed nodes with an
absent or empty parentId (an event whose parentId is present but does
not resolve is not a candidate and is simply never attached).  If any
root candidate is task-type, the earliest one becomes the tree root;
with candidates but no task-type candidate, a synthetic root is
fabricated from the session root task, status, start time and total
duration, with all root candidates as its children; with no candidates
the returned root is null. -/
theorem tree_root_c5_amended (tsGe : String → String → Bool) (st : SMState) (sid : String)
    (sess : Session) (ic : Bool) (md : Nat)
    (hs : alookup sid st.sessions = some sess) (hmd : 1 ≤ md)
    (hne : getSessionEvents tsGe st sid noFilter ≠ []) :
    ((pass1 ic (getSessionEvents tsGe st sid noFilter)).filter
        (fun n => strFalsy n.parent_id) = [] →
      (buildActivityTree tsGe st sid ic md).root_task = RootTask.nullRoot)
    ∧ (∀ t ts, ((pass1 ic (getSessionEvents tsGe st sid noFilter)).filter
          (fun n => strFalsy n.parent_id)).filter
          (fun n => jsStartsWith n.event_type "task_") = t :: ts →
        (buildActivityTree tsGe st sid ic md).root_task = RootTask.real t.id)
    ∧ ((pass1 ic (getSessionEvents tsGe st sid noFilter)).filter
          (fun n => strFalsy n.parent_id) ≠ [] →
        ((pass1 ic (getSessionEvents tsGe st sid noFilter)).filter
          (fun n => strFalsy n.parent_id)).filter
          (fun n => jsStartsWith n.event_type "task_") = [] →
        (buildActivityTree tsGe st sid ic md).root_task
          = RootTask.synthetic sess.root_task sess.root_task sess.status sess.start_time
              sess.total_duration_ms
              (((pass1 ic (getSessionEvents tsGe st sid noFilter)).filter
                (fun n => strFalsy n.parent_id)).map BNode.id)) := by
  have hie : (getSessionEvents tsGe st sid noFilter).isEmpty = false := by
    cases hevs : getSessionEvents tsGe st sid noFilter with
    | nil => exact absurd hevs hne
    | cons a l => rfl
  have hmd0 : md ≠ 0 := by omega
  refine ⟨?_, ?_, ?_⟩
  · intro h0
    simp only [buildActivityTree, hs, hie, Bool.false_eq_true, if_false]
    rw [h0, selectRoot_empty, limitRoot_snd_null]
  · intro t ts h0
    simp only [buildActivityTree, hs, hie, Bool.false_eq_true, if_false]
    rw [selectRoot_task sess _ t ts h0, limitRoot_snd_real]
  · intro h0 h1
    simp only [buildActivityTree, hs, hie, Bool.false_eq_true, if_false]
    rw [selectRoot_synth sess _ h0 h1, limitRoot_snd_synth _ _ _ _ _ _ _ _ hmd0]

theorem foldl_preserve_map_id {β : Type} (step : List BNode → β → List BNode)
    (h : ∀ acc x, (step acc x).map BNode.id = acc.map BNode.id) :
    ∀ (l : List β) (acc : List BNode),
      (l.foldl step acc).map BNode.id = acc.map BNode.id
  | [], _ => rfl
  | x :: rest, acc => by
    rw [List.foldl_cons, foldl_preserve_map_id step h rest (step acc x), h]

theorem attachChild_map_id (acc : List BNode) (pid cid : String) :
    (attachChild acc pid cid).map BNode.id = acc.map BNode.id := by
  unfold attachChild
  rw [List.map_map]
  refine List.map_congr_left ?_
  intro m _
  by_cases hm : m.id = pid <;> simp [hm]

theorem clearChildren_map_id (nodes : List BNode) (nid : String) :
    (clearChildren nodes nid).map BNode.id = nodes.map BNode.id := by
  unfold clearChildren
  rw [List.map_map]
  refine List.map_congr_left ?_
  intro m _
  by_cases hm : m.id = nid <;> simp [hm]

theorem pass2_map_id (nodes : List BNode) :
    (pass2 nodes).map BNode.id = nodes.map BNode.id := by
  unfold pass2
  refine foldl_preserve_map_id _ ?_ nodes nodes
  intro acc n
  cases n.parent_id with
  | none => rfl
  | some pid =>
    dsimp only
    split_ifs
    · rfl
    · exact attachChild_map_id acc pid n.id
    · rfl

theorem limitNode_map_id (maxDepth : Nat) :
    ∀ (fuel : Nat) (nodes : List BNode) (nid : String) (depth : Nat),
      (limitNode maxDepth fuel nodes nid depth).map BNode.id = nodes.map BNode.id
  | 0, _, _, _ => rfl
  | fuel + 1, nodes, nid, depth => by
    unfold limitNode
    split_ifs with hd
    · exact clearChildren_map_id nodes nid
    · cases nodes.find? (fun m => m.id = nid) with
      | none => rfl
      | some m =>
        exact foldl_preserve_map_id _
          (fun acc cid => limitNode_map_id maxDepth fuel acc cid (depth + 1))
          m.children nodes

theorem limitRoot_fst_map_id (md : Nat) (nodes : List BNode) (root : RootTask) :
    (limitRoot md nodes root).1.map BNode.id = nodes.map BNode.id := by
  cases root with
  | nullRoot => rfl
  | real rid => exact limitNode_map_id md _ nodes rid 0
  | synthetic nm ds stt ts dur cs =>
    unfold limitRoot
    by_cases h : md = 0
    · simp [h]
    · simp only [h, if_false]
      exact foldl_preserve_map_id _
        (fun acc cid => limitNode_map_id md _ acc cid 1) cs nodes

theorem pass1_false_go :
    ∀ (events : List StoredEvent) (acc : List BNode),
      events.foldl
        (fun acc e => if !false && e.status == "success" then acc else acc ++ [mkBNode e])
        acc
      = acc ++ ((events.filter (fun e => e.status ≠ "success")).map mkBNode)
  | [], acc => by simp
  | e :: rest, acc => by
    rw [List.foldl_cons, List.filter_cons]
    by_cases hsucc : e.status = "success"
    · have hc : (!false && (e.status == "success")) = true := by simp [hsucc]
      simp only [hc, if_true]
      rw [pass1_false_go rest acc]
      simp [hsucc]
    · have hc : (!false && (e.status == "success")) = false := by simp [hsucc]
      simp only [hc, Bool.false_eq_true, if_false]
      rw [pass1_false_go rest (acc ++ [mkBNode e])]
      simp [hsucc, List.append_assoc]

theorem pass1_false_eq (events : List StoredEvent) :
    pass1 false events = (events.filter (fun e => e.status ≠ "success")).map mkBNode := by
  unfold pass1
  simpa using pass1_false_go events []

/-- C6 counterexample: a successful event with an in-progress child.
With include_completed = false, buildActivityTree excludes the success
node from construction even though its child is still running — the
resulting tree contains only the child node, contradicting the claim
that such a node is never excluded. -/
theorem include_completed_c6_counterexample :
    (getSessionEvents (fun _ _ => true)
        (addEvents (mkSessionManager none) "s"
          [mkIn "tool_post_call" "success" none, mkIn "tool_pre_call" "running"
            (some "uuid-0")] "now") "s" noFilter).map
        (fun e => (e.id, e.status, e.parent_id))
      = [("uuid-0", "success", none), ("uuid-1", "running", some "uuid-0")]
    ∧ ((buildActivityTree (fun _ _ => true)
        (addEvents (mkSessionManager none) "s"
          [mkIn "tool_post_call" "success" none, mkIn "tool_pre_call" "running"
            (some "uuid-0")] "now") "s" false 5).nodes).map BNode.id
      = ["uuid-1"] := by
  exact ⟨rfl, rfl⟩

/-- C6 amended: with include_completed = false, buildActivityTree
excludes from node construction exactly the events whose status is
success — including nodes whose children are still in progress (the
orphaned children stay as nodes but are never attached). -/
theorem include_completed_c6_amended (tsGe : String → String → Bool) (st : SMState)
    (sid : String) (sess : Session) (md : Nat)
    (hs : alookup sid st.sessions = some sess) :
    pass1 false (getSessionEvents tsGe st sid noFilter)
      = ((getSessionEvents tsGe st sid noFilter).filter
          (fun e => e.status ≠ "success")).map mkBNode
    ∧ (buildActivityTree tsGe st sid false md).nodes.map BNode.id
      = ((getSessionEvents tsGe st sid noFilter).filter
          (fun e => e.status ≠ "success")).map StoredEvent.id := by
  refine ⟨pass1_false_eq _, ?_⟩
  by_cases hevs : getSessionEvents tsGe st sid noFilter = []
  · unfold buildActivityTree
    rw [hs]
    dsimp only
    rw [hevs]
    simp
  · have hie : (getSessionEvents tsGe st sid noFilter).isEmpty = false := by
      cases h : getSessionEvents tsGe st sid noFilter with
      | nil => exact absurd h hevs
      | cons a l => rfl
    simp only [buildActivityTree, hs, hie, Bool.false_eq_true, if_false]
    rw [limitRoot_fst_map_id, pass2_map_id, pass1_false_eq, List.map_map]
    rfl



/-- Witness for the amended C5 on a one-event session. -/
theorem tree_root_c5_amended_witness :
    alookup "s" (SMState.mk [("s", createSessionRecord "s" "T" "now")] [("s", [StoredEvent.mk "e0" "t" "task_started" "started" none none none none none none])] 1000 1).sessions = some (createSessionRecord "s" "T" "now")
    ∧ 1 ≤ 5
    ∧ getSessionEvents (fun _ _ => true) (SMState.mk [("s", createSessionRecord "s" "T" "now")] [("s", [StoredEvent.mk "e0" "t" "task_started" "started" none none none none none none])] 1000 1) "s" noFilter ≠ []
    ∧ (((pass1 true (getSessionEvents (fun _ _ => true) (SMState.mk [("s", createSessionRecord "s" "T" "now")] [("s", [StoredEvent.mk "e0" "t" "task_started" "started" none none none none none none])] 1000 1) "s" noFilter)).filter
          (fun n => strFalsy n.parent_id) = [] →
        (buildActivityTree (fun _ _ => true) (SMState.mk [("s", createSessionRecord "s" "T" "now")] [("s", [StoredEvent.mk "e0" "t" "task_started" "started" none none none none none none])] 1000 1) "s" true 5).root_task = RootTask.nullRoot)
      ∧ (∀ t ts, ((pass1 true (getSessionEvents (fun _ _ => true) (SMState.mk [("s", createSessionRecord "s" "T" "now")] [("s", [StoredEvent.mk "e0" "t" "task_started" "started" none none none none none none])] 1000 1) "s" noFilter)).filter
            (fun n => strFalsy n.parent_id)).filter
            (fun n => jsStartsWith n.event_type "task_") = t :: ts →
          (buildActivityTree (fun _ _ => true) (SMState.mk [("s", createSessionRecord "s" "T" "now")] [("s", [StoredEvent.mk "e0" "t" "task_started" "started" none none none none none none])] 1000 1) "s" true 5).root_task = RootTask.real t.id)
      ∧ ((pass1 true (getSessionEvents (fun _ _ => true) (SMState.mk [("s", createSessionRecord "s" "T" "now")] [("s", [StoredEvent.mk "e0" "t" "task_started" "started" none none none none none none])] 1000 1) "s" noFilter)).filter
            (fun n => strFalsy n.parent_id) ≠ [] →
          ((pass1 true (getSessionEvents (fun _ _ => true) (SMState.mk [("s", createSessionRecord "s" "T" "now")] [("s", [StoredEvent.mk "e0" "t" "task_started" "started" none none none none none none])] 1000 1) "s" noFilter)).filter
            (fun n => strFalsy n.parent_id)).filter
            (fun n => jsStartsWith n.event_type "task_") = [] →
          (buildActivityTree (fun _ _ => true) (SMState.mk [("s", createSessionRecord "s" "T" "now")] [("s", [StoredEvent.mk "e0" "t" "task_started" "started" none none none none none none])] 1000 1) "s" true 5).root_task
            = RootTask.synthetic (createSessionRecord "s" "T" "now").root_task (createSessionRecord "s" "T" "now").root_task (createSessionRecord "s" "T" "now").status
                (createSessionRecord "s" "T" "now").start_time (createSessionRecord "s" "T" "now").total_duration_ms
                (((pass1 true (getSessionEvents (fun _ _ => true) (SMState.mk [("s", createSessionRecord "s" "T" "now")] [("s", [StoredEvent.mk "e0" "t" "task_started" "started" none none none none none none])] 1000 1) "s" noFilter)).filter
                  (fun n => strFalsy n.parent_id)).map BNode.id))) :=
  ⟨rfl, by omega, by decide,
    tree_root_c5_amended (fun _ _ => true) (SMState.mk [("s", createSessionRecord "s" "T" "now")] [("s", [StoredEvent.mk "e0" "t" "task_started" "started" none none none none none none])] 1000 1) "s" (createSessionRecord "s" "T" "now") true 5 rfl (by omega)
      (by decide)⟩

/-- Witness for the amended C6 on a one-event session. -/
theorem include_completed_c6_amended_witness :
    alookup "s" (SMState.mk [("s", createSessionRecord "s" "T" "now")] [("s", [StoredEvent.mk "e0" "t" "task_started" "started" none none none none none none])] 1000 1).sessions = some (createSessionRecord "s" "T" "now")
    ∧ (pass1 false (getSessionEvents (fun _ _ => true) (SMState.mk [("s", createSessionRecord "s" "T" "now")] [("s", [StoredEvent.mk "e0" "t" "task_started" "started" none none none none none none])] 1000 1) "s" noFilter)
        = ((getSessionEvents (fun _ _ => true) (SMState.mk [("s", createSessionRecord "s" "T" "now")] [("s", [StoredEvent.mk "e0" "t" "task_started" "started" none none none none none none])] 1000 1) "s" noFilter).filter (fun e => e.status ≠ "success")).map mkBNode
      ∧ (buildActivityTree (fun _ _ => true) (SMState.mk [("s", createSessionRecord "s" "T" "now")] [("s", [StoredEvent.mk "e0" "t" "task_started" "started" none none none none none none])] 1000 1) "s" false 5).nodes.map BNode.id
        = ((getSessionEvents (fun _ _ => true) (SMState.mk [("s", createSessionRecord "s" "T" "now")] [("s", [StoredEvent.mk "e0" "t" "task_started" "started" none none none none none none])] 1000 1) "s" noFilter).filter (fun e => e.status ≠ "success")).map StoredEvent.id) :=
  ⟨rfl, include_completed_c6_amended (fun _ _ => true) (SMState.mk [("s", createSessionRecord "s" "T" "now")] [("s", [StoredEvent.mk "e0" "t" "task_started" "started" none none none none none none])] 1000 1) "s" (createSessionRecord "s" "T" "now") 5 rfl⟩



/-! ### C7: validateEvent characterisation -/

mutual

theorem vdo_spec : ∀ (v : JsValue) (d m : Nat),
    validateDetailsObject v d m = (decide (jsDepth v + d ≤ m) && detailsCapsOk v)
  | .vUndef, d, m => by
    unfold validateDetailsObject detailsCapsOk jsDepth
    split_ifs <;> simp
  | .vNull, d, m => by
    unfold validateDetailsObject detailsCapsOk jsDepth
    split_ifs <;> simp
  | .vBool b, d, m => by
    unfold validateDetailsObject detailsCapsOk jsDepth
    split_ifs with h
    · have hx : ¬ (0 + d ≤ m) := by omega
      simp [hx] <;> omega
    · have hx : (0 + d ≤ m) := by omega
      simp [hx] <;> omega
  | .vNum n, d, m => by
    unfold validateDetailsObject detailsCapsOk jsDepth
    split_ifs with h
    · have hx : ¬ (0 + d ≤ m) := by omega
      simp [hx] <;> omega
    · have hx : (0 + d ≤ m) := by omega
      simp [hx] <;> omega
  | .vStr s, d, m => by
    unfold validateDetailsObject detailsCapsOk jsDepth
    split_ifs with h
    · have hx : ¬ (0 + d ≤ m) := by omega
      simp [hx] <;> omega
    · have hx : (0 + d ≤ m) := by omega
      simp [hx] <;> omega
  | .vArr l, d, m => by
    unfold validateDetailsObject detailsCapsOk jsDepth
    split_ifs with h
    · have hx : ¬ (jsDepthList l + d ≤ m) := by omega
      simp [hx]
    · dsimp only
      rw [vdl_spec l (d + 1) m (by omega)]
      have heq : decide (jsDepthList l + (d + 1) ≤ m + 1)
          = decide (jsDepthList l + d ≤ m) := by
        rw [decide_eq_decide]
        omega
      rw [heq]
      exact Bool.and_left_comm _ _ _
  | .vObj fs, d, m => by
    unfold validateDetailsObject detailsCapsOk jsDepth
    split_ifs with h
    · have hx : ¬ (jsDepthFields fs + d ≤ m) := by omega
      simp [hx]
    · dsimp only
      rw [vdf_spec fs (d + 1) m (by omega)]
      have heq : decide (jsDepthFields fs + (d + 1) ≤ m + 1)
          = decide (jsDepthFields fs + d ≤ m) := by
        rw [decide_eq_decide]
        omega
      rw [heq]
      exact Bool.and_left_comm _ _ _

theorem vdl_spec : ∀ (l : List JsValue) (d m : Nat), d ≤ m + 1 →
    validateDetailsList l d m = (decide (jsDepthList l + d ≤ m + 1) && detailsCapsOkList l)
  | [], d, m, h => by
    unfold validateDetailsList jsDepthList detailsCapsOkList
    have hx : (0 + d ≤ m + 1) := by omega
    simp [hx] <;> omega
  | x :: xs, d, m, h => by
    unfold validateDetailsList jsDepthList detailsCapsOkList
    rw [vdo_spec x d m, vdl_spec xs d m h]
    have hmax : decide (max (1 + jsDepth x) (jsDepthList xs) + d ≤ m + 1)
        = (decide (jsDepth x + d ≤ m) && decide (jsDepthList xs + d ≤ m + 1)) := by
      by_cases hA : jsDepth x + d ≤ m <;> by_cases hB : jsDepthList xs + d ≤ m + 1 <;>
        simp [hA, hB] <;> omega
    rw [hmax]
    cases decide (jsDepth x + d ≤ m) <;> cases detailsCapsOk x <;>
      cases decide (jsDepthList xs + d ≤ m + 1) <;> cases detailsCapsOkList xs <;> rfl

theorem vdf_spec : ∀ (fs : List (String × JsValue)) (d m : Nat), d ≤ m + 1 →
    validateDetailsFields fs d m
      = (decide (jsDepthFields fs + d ≤ m + 1) && detailsCapsOkFields fs)
  | [], d, m, h => by
    unfold validateDetailsFields jsDepthFields detailsCapsOkFields
    have hx : (0 + d ≤ m + 1) := by omega
    simp [hx] <;> omega
  | (k, v) :: rest, d, m, h => by
    unfold validateDetailsFields jsDepthFields detailsCapsOkFields
    rw [vdo_spec v d m, vdf_spec rest d m h]
    have hmax : decide (max (1 + jsDepth v) (jsDepthFields rest) + d ≤ m + 1)
        = (decide (jsDepth v + d ≤ m) && decide (jsDepthFields rest + d ≤ m + 1)) := by
      by_cases hA : jsDepth v + d ≤ m <;> by_cases hB : jsDepthFields rest + d ≤ m + 1 <;>
        simp [hA, hB] <;> omega
    rw [hmax]
    cases decide (k.length ≤ 100) <;> cases decide (jsDepth v + d ≤ m) <;>
      cases detailsCapsOk v <;> cases decide (jsDepthFields rest + d ≤ m + 1) <;>
      cases detailsCapsOkFields rest <;> rfl

end

/-- C7 counterexample: an event satisfying every constraint the claim
lists (all required fields present and enumerated, parseable timestamp,
no empty identifiers, no negative duration, details within every
depth/size/length cap) whose details contain a null value — the claim
deems it valid, but validateEvent returns false, since
validateDetailsObject rejects null leaves. -/
theorem validate_event_c7_counterexample :
    claimC7Literal (fun _ => true)
      (RawEvent.mk (JsValue.vStr "2024-01-01T00:00:00Z") (JsValue.vStr "s1")
        (JsValue.vStr "task_started") (JsValue.vStr "started") JsValue.vNull JsValue.vNull
        JsValue.vNull (JsValue.vObj [("a", JsValue.vNull)]) JsValue.vNull) = true
    ∧ validateEvent (fun _ => true)
      (RawEvent.mk (JsValue.vStr "2024-01-01T00:00:00Z") (JsValue.vStr "s1")
        (JsValue.vStr "task_started") (JsValue.vStr "started") JsValue.vNull JsValue.vNull
        JsValue.vNull (JsValue.vObj [("a", JsValue.vNull)]) JsValue.vNull) = false :=
  ⟨rfl, rfl⟩

/-- C7 amended: validateEvent returns true exactly on the inputs
characterised by amendedValidEvent — the claimed constraints plus the
type requirements the code enforces (typed identifier and duration
fields, and details leaf values restricted to strings, numbers and
booleans, rejecting null/undefined leaves). -/
theorem validate_event_c7_amended (parseOk : String → Bool) (e : RawEvent) :
    validateEvent parseOk e = amendedValidEvent parseOk e := by
  by_cases h1 : isUndef e.timestamp
  · cases htc : e.timestamp <;> rw [htc] at h1 <;> simp [isUndef] at h1 <;>
      simp [validateEvent, amendedValidEvent, htc, isUndef]
  · by_cases h2 : isUndef e.session_id
    · cases hsc : e.session_id <;> rw [hsc] at h2 <;> simp [isUndef] at h2 <;>
        simp [validateEvent, amendedValidEvent, hsc, isUndef]
    · by_cases h3 : isUndef e.event_type
      · cases hec : e.event_type <;> rw [hec] at h3 <;> simp [isUndef] at h3 <;>
          simp [validateEvent, amendedValidEvent, hec, isUndef]
      · by_cases h4 : isUndef e.status
        · cases hstc : e.status <;> rw [hstc] at h4 <;> simp [isUndef] at h4 <;>
            simp [validateEvent, amendedValidEvent, hstc, isUndef]
        · simp only [Bool.not_eq_true] at h1 h2 h3 h4
          simp only [validateEvent, amendedValidEvent, h1, h2, h3, h4, Bool.or_self,
            Bool.false_or, Bool.false_eq_true, if_false, vdo_spec, Nat.add_zero,
            optIdOkAmended, durationOkAmended]



/-! ### C9: broadcast failure isolation -/

theorem stopStream_lookup_self (st : ASState) (i : Nat) :
    alookup i (stopStream st i).streams = none := by
  unfold stopStream
  cases h : alookup i st.streams with
  | none => exact h
  | some s => simp [alookup_mapDelete_self]

theorem stopStream_lookup_other (st : ASState) (i j : Nat) (h : j ≠ i) :
    alookup j (stopStream st i).streams = alookup j st.streams := by
  unfold stopStream
  cases hl : alookup i st.streams with
  | none => rfl
  | some s => simp [alookup_mapDelete_other i j h]

theorem bstep_lookup_other (ev b : Nat) (st : ASState) (outs : List (Nat × Nat))
    (i0 j : Nat) (h : j ≠ i0) :
    alookup j (broadcastStep (fun x => x == b) ev (st, outs) i0).1.streams
      = alookup j st.streams := by
  unfold broadcastStep
  dsimp only
  cases hl : alookup i0 st.streams with
  | none => rfl
  | some s =>
    dsimp only
    split_ifs with h1 h2
    · rfl
    · exact stopStream_lookup_other st i0 j h
    · simp [alookup_mapSet_other st.streams i0 j _ h]

theorem bstep_flags (ev b : Nat) (st : ASState) (outs : List (Nat × Nat))
    (i0 j : Nat) (hj : j ≠ b) :
    (alookup j (broadcastStep (fun x => x == b) ev (st, outs) i0).1.streams).map
        (fun s => (s.isActive, s.sessionId))
      = (alookup j st.streams).map (fun s => (s.isActive, s.sessionId)) := by
  by_cases hji : j = i0
  · subst hji
    unfold broadcastStep
    dsimp only
    cases hl : alookup j st.streams with
    | none => simp [hl]
    | some s =>
      dsimp only
      split_ifs with h1 h2
      · simp [hl]
      · exact absurd (by simpa using h2) hj
      · simp [alookup_mapSet_self, hl]
  · rw [bstep_lookup_other ev b st outs i0 j hji]

theorem bstep_sessionStreams_of_ne (ev b : Nat) (st : ASState) (outs : List (Nat × Nat))
    (i0 : Nat) (hib : i0 ≠ b) :
    (broadcastStep (fun x => x == b) ev (st, outs) i0).1.sessionStreams
      = st.sessionStreams := by
  unfold broadcastStep
  dsimp only
  cases hl : alookup i0 st.streams with
  | none => rfl
  | some s =>
    dsimp only
    split_ifs with h1 h2
    · rfl
    · exact absurd (by simpa using h2) hib
    · rfl

theorem bstep_outs (ev b : Nat) (st : ASState) (outs : List (Nat × Nat)) (i0 : Nat) :
    (broadcastStep (fun x => x == b) ev (st, outs) i0).2 = outs
    ∨ (broadcastStep (fun x => x == b) ev (st, outs) i0).2 = outs ++ [(i0, ev)] := by
  unfold broadcastStep
  dsimp only
  cases hl : alookup i0 st.streams with
  | none => exact Or.inl rfl
  | some s =>
    dsimp only
    split_ifs with h1 h2
    · exact Or.inl rfl
    · exact Or.inl rfl
    · exact Or.inr rfl

theorem c9_fold (ev b : Nat) (sid : String) (sb : StreamRec) (ids : List Nat)
    (hA : sb.isActive = true) (hS : sb.sessionId = sid) :
    ∀ (l : List Nat) (st : ASState) (outs : List (Nat × Nat)),
      ((alookup b st.streams = some sb ∧ alookup sid st.sessionStreams = some ids) ∨
        (alookup b st.streams = none ∧
          ∀ i, i ∈ ids → i ≠ b → i ∈ (alookup sid st.sessionStreams).getD [])) →
      (∀ x, x ∈ outs → x ∈ (l.foldl (broadcastStep (fun x => x == b) ev) (st, outs)).2)
      ∧ (∀ j, j ≠ b →
          (alookup j (l.foldl (broadcastStep (fun x => x == b) ev)
              (st, outs)).1.streams).map (fun s => (s.isActive, s.sessionId))
            = (alookup j st.streams).map (fun s => (s.isActive, s.sessionId)))
      ∧ (∀ i s, i ∈ l → i ≠ b → alookup i st.streams = some s → s.isActive = true →
          (i, ev) ∈ (l.foldl (broadcastStep (fun x => x == b) ev) (st, outs)).2)
      ∧ ((b ∈ l ∨ alookup b st.streams = none) →
          alookup b (l.foldl (broadcastStep (fun x => x == b) ev) (st, outs)).1.streams = none
          ∧ ∀ i, i ∈ ids → i ≠ b →
              i ∈ (alookup sid (l.foldl (broadcastStep (fun x => x == b) ev)
                (st, outs)).1.sessionStreams).getD [])
  | [], st, outs, hinv => by
    refine ⟨fun x hx => hx, fun j _ => rfl, fun i s hi => absurd hi (List.not_mem_nil i), ?_⟩
    intro hb
    cases hb with
    | inl h => exact absurd h (List.not_mem_nil b)
    | inr h =>
      rcases hinv with ⟨hsome, _⟩ | ⟨_, hmem⟩
      · rw [h] at hsome
        exact Option.noConfusion hsome
      · exact ⟨h, hmem⟩
  | i0 :: rest, st, outs, hinv => by
    have hfold : (i0 :: rest).foldl (broadcastStep (fun x => x == b) ev) (st, outs)
        = rest.foldl (broadcastStep (fun x => x == b) ev)
            (broadcastStep (fun x => x == b) ev (st, outs) i0) := rfl
    by_cases hib : i0 = b
    · subst hib
      rcases hinv with ⟨hbs, hsid⟩ | ⟨hnone, hmem⟩
      · -- the failing stream is processed here and stopped
        have hstep : broadcastStep (fun x => x == i0) ev (st, outs) i0
            = (stopStream st i0, outs) := by
          unfold broadcastStep
          dsimp only
          rw [hbs]
          dsimp only
          rw [hA]
          simp
        have hpost1 : alookup i0 (stopStream st i0).streams = none :=
          stopStream_lookup_self st i0
        have hpost2 : ∀ i, i ∈ ids → i ≠ i0 →
            i ∈ (alookup sid (stopStream st i0).sessionStreams).getD [] := by
          intro i hi hne
          unfold stopStream
          rw [hbs]
          dsimp only
          rw [hS, hsid]
          have hifilter : i ∈ ids.filter (fun x => x ≠ i0) := by
            rw [List.mem_filter]
            exact ⟨hi, by simpa using hne⟩
          dsimp only [Option.getD_some]
          by_cases hrem : ids.filter (fun x => x ≠ i0) = []
          · rw [hrem] at hifilter
            exact absurd hifilter (List.not_mem_nil i)
          · rw [if_neg hrem]
            simp only [alookup_mapSet_self, Option.getD_some]
            exact hifilter
        have IH := c9_fold ev i0 sid sb ids hA hS rest (stopStream st i0) outs
          (Or.inr ⟨hpost1, hpost2⟩)
        rw [hfold, hstep]
        refine ⟨IH.1, ?_, ?_, ?_⟩
        · intro j hj
          rw [IH.2.1 j hj, stopStream_lookup_other st i0 j hj]
        · intro i s hi hne hsl hact
          cases hi with
          | head => exact absurd rfl hne
          | tail _ htail =>
            have hsl1 : alookup i (stopStream st i0).streams = some s := by
              rw [stopStream_lookup_other st i0 i hne]
              exact hsl
            exact IH.2.2.1 i s htail hne hsl1 hact
        · intro _
          exact IH.2.2.2 (Or.inr hpost1)
      · -- the failing stream is already stopped: the step skips it
        have hstep : broadcastStep (fun x => x == i0) ev (st, outs) i0 = (st, outs) := by
          unfold broadcastStep
          dsimp only
          rw [hnone]
        have IH := c9_fold ev i0 sid sb ids hA hS rest st outs (Or.inr ⟨hnone, hmem⟩)
        rw [hfold, hstep]
        refine ⟨IH.1, IH.2.1, ?_, ?_⟩
        · intro i s hi hne hsl hact
          cases hi with
          | head => exact absurd rfl hne
          | tail _ htail => exact IH.2.2.1 i s htail hne hsl hact
        · intro _
          exact IH.2.2.2 (Or.inr hnone)
    · -- a non-failing stream: the step never stops anything
      have hb1 : alookup b (broadcastStep (fun x => x == b) ev (st, outs) i0).1.streams
          = alookup b st.streams :=
        bstep_lookup_other ev b st outs i0 b (fun hc => hib hc.symm)
      have hss : (broadcastStep (fun x => x == b) ev (st, outs) i0).1.sessionStreams
          = st.sessionStreams := bstep_sessionStreams_of_ne ev b st outs i0 hib
      have hinv1 : ((alookup b (broadcastStep (fun x => x == b) ev (st, outs) i0).1.streams
            = some sb
          ∧ alookup sid (broadcastStep (fun x => x == b) ev
              (st, outs) i0).1.sessionStreams = some ids) ∨
        (alookup b (broadcastStep (fun x => x == b) ev (st, outs) i0).1.streams = none ∧
          ∀ i, i ∈ ids → i ≠ b →
            i ∈ (alookup sid (broadcastStep (fun x => x == b) ev
              (st, outs) i0).1.sessionStreams).getD [])) := by
        rw [hb1, hss]
        exact hinv
      have IH := c9_fold ev b sid sb ids hA hS rest
        (broadcastStep (fun x => x == b) ev (st, outs) i0).1
        (broadcastStep (fun x => x == b) ev (st, outs) i0).2 hinv1
      rw [hfold]
      have hfold2 : rest.foldl (broadcastStep (fun x => x == b) ev)
          (broadcastStep (fun x => x == b) ev (st, outs) i0)
          = rest.foldl (broadcastStep (fun x => x == b) ev)
            ((broadcastStep (fun x => x == b) ev (st, outs) i0).1,
             (broadcastStep (fun x => x == b) ev (st, outs) i0).2) := rfl
      rw [hfold2]
      have hmono : ∀ x, x ∈ outs →
          x ∈ (broadcastStep (fun x => x == b) ev (st, outs) i0).2 := by
        intro x hx
        rcases bstep_outs ev b st outs i0 with h | h <;> rw [h]
        · exact hx
        · exact List.mem_append_left _ hx
      refine ⟨fun x hx => IH.1 x (hmono x hx), ?_, ?_, ?_⟩
      · intro j hj
        rw [IH.2.1 j hj, bstep_flags ev b st outs i0 j hj]
      · intro i s hi hne hsl hact
        cases hi with
        | head =>
          have hdel : (broadcastStep (fun x => x == b) ev (st, outs) i0).2
              = outs ++ [(i0, ev)] := by
            unfold broadcastStep
            dsimp only
            rw [hsl]
            dsimp only
            rw [hact]
            have hfb : (i0 == b) = false := by
              simpa using hib
            rw [hfb]
            simp
          have : (i0, ev) ∈ (broadcastStep (fun x => x == b) ev (st, outs) i0).2 := by
            rw [hdel]
            exact List.mem_append_right _ (List.mem_singleton_self _)
          exact IH.1 _ this
        | tail _ htail =>
          have hfl := bstep_flags ev b st outs i0 i hne
          rw [hsl] at hfl
          rcases Option.map_eq_some'.mp hfl with ⟨s2, hs2, hflag⟩
          have hact2 : s2.isActive = true := by
            have := congrArg Prod.fst hflag
            simp at this
            rw [this, hact]
          exact IH.2.2.1 i s2 htail hne hs2 hact2
      · intro hb
        have hbrest : b ∈ rest ∨
            alookup b (broadcastStep (fun x => x == b) ev (st, outs) i0).1.streams
              = none := by
          cases hb with
          | inl hmem0 =>
            cases hmem0 with
            | head => exact absurd rfl hib
            | tail _ ht => exact Or.inl ht
          | inr hn =>
            rw [hb1]
            exact Or.inr hn
        exact IH.2.2.2 hbrest



/-- C9: if during broadcastEvent delivery to one stream throws (the
fail oracle holds exactly for stream b), then only that stream is
stopped: every other active stream of the session still receives the
event, stream b is removed, every other stream keeps its activity flag
and session, other subscribers stay subscribed, and broadcastEvent
returns normally (it is a total function — the failure is caught, not
rethrown). -/
theorem broadcast_isolation_c9 (st : ASState) (sid : String) (ev b : Nat)
    (ids : List Nat) (sb : StreamRec)
    (hids : alookup sid st.sessionStreams = some ids)
    (hbmem : b ∈ ids)
    (hb : alookup b st.streams = some sb)
    (hA : sb.isActive = true)
    (hS : sb.sessionId = sid) :
    (∀ i s, i ∈ ids → i ≠ b → alookup i st.streams = some s → s.isActive = true →
      (i, ev) ∈ (broadcastEvent (fun x => x == b) st sid ev).2)
    ∧ alookup b (broadcastEvent (fun x => x == b) st sid ev).1.streams = none
    ∧ (∀ j, j ≠ b →
        (alookup j (broadcastEvent (fun x => x == b) st sid ev).1.streams).map
            (fun s => (s.isActive, s.sessionId))
          = (alookup j st.streams).map (fun s => (s.isActive, s.sessionId)))
    ∧ (∀ i, i ∈ ids → i ≠ b →
        i ∈ (alookup sid (broadcastEvent (fun x => x == b)
          st sid ev).1.sessionStreams).getD []) := by
  have hstreams : (addToEventBuffer st sid ev).streams = st.streams := rfl
  have hsess : (addToEventBuffer st sid ev).sessionStreams = st.sessionStreams := rfl
  have hids1 : alookup sid (addToEventBuffer st sid ev).sessionStreams = some ids := by
    rw [hsess]
    exact hids
  have hie : ids.isEmpty = false := by
    cases ids with
    | nil => exact absurd hbmem (List.not_mem_nil b)
    | cons a l => rfl
  have hres : broadcastEvent (fun x => x == b) st sid ev
      = ids.foldl (broadcastStep (fun x => x == b) ev) (addToEventBuffer st sid ev, []) := by
    unfold broadcastEvent
    simp only [hids1, hie, Bool.false_eq_true, if_false]
  have hinv : ((alookup b (addToEventBuffer st sid ev).streams = some sb
        ∧ alookup sid (addToEventBuffer st sid ev).sessionStreams = some ids) ∨
      (alookup b (addToEventBuffer st sid ev).streams = none ∧
        ∀ i, i ∈ ids → i ≠ b →
          i ∈ (alookup sid (addToEventBuffer st sid ev).sessionStreams).getD [])) := by
    rw [hstreams, hsess]
    exact Or.inl ⟨hb, hids⟩
  have F := c9_fold ev b sid sb ids hA hS ids (addToEventBuffer st sid ev) [] hinv
  rw [hres]
  refine ⟨?_, ?_, ?_, ?_⟩
  · intro i s hi hne hsl hact
    have hsl1 : alookup i (addToEventBuffer st sid ev).streams = some s := by
      rw [hstreams]
      exact hsl
    exact F.2.2.1 i s hi hne hsl1 hact
  · exact (F.2.2.2 (Or.inl hbmem)).1
  · intro j hj
    rw [F.2.1 j hj, hstreams]
  · exact (F.2.2.2 (Or.inl hbmem)).2

/-- Witness for C9: two active streams on one session, stream 1 fails. -/
theorem broadcast_isolation_c9_witness :
    alookup "s" (ASState.mk [(0, StreamRec.mk "s" true 0), (1, StreamRec.mk "s" true 0)] [("s", [0, 1])] [] 100 2).sessionStreams = some [0, 1]
    ∧ (1 : Nat) ∈ [0, 1]
    ∧ alookup 1 (ASState.mk [(0, StreamRec.mk "s" true 0), (1, StreamRec.mk "s" true 0)] [("s", [0, 1])] [] 100 2).streams = some (StreamRec.mk "s" true 0)
    ∧ (StreamRec.mk "s" true 0).isActive = true
    ∧ (StreamRec.mk "s" true 0).sessionId = "s"
    ∧ ((∀ i s, i ∈ [0, 1] → i ≠ 1 → alookup i (ASState.mk [(0, StreamRec.mk "s" true 0), (1, StreamRec.mk "s" true 0)] [("s", [0, 1])] [] 100 2).streams = some s →
          s.isActive = true → (i, 7) ∈ (broadcastEvent (fun x => x == 1) (ASState.mk [(0, StreamRec.mk "s" true 0), (1, StreamRec.mk "s" true 0)] [("s", [0, 1])] [] 100 2) "s" 7).2)
      ∧ alookup 1 (broadcastEvent (fun x => x == 1) (ASState.mk [(0, StreamRec.mk "s" true 0), (1, StreamRec.mk "s" true 0)] [("s", [0, 1])] [] 100 2) "s" 7).1.streams = none
      ∧ (∀ j, j ≠ 1 →
          (alookup j (broadcastEvent (fun x => x == 1) (ASState.mk [(0, StreamRec.mk "s" true 0), (1, StreamRec.mk "s" true 0)] [("s", [0, 1])] [] 100 2) "s" 7).1.streams).map
              (fun s => (s.isActive, s.sessionId))
            = (alookup j (ASState.mk [(0, StreamRec.mk "s" true 0), (1, StreamRec.mk "s" true 0)] [("s", [0, 1])] [] 100 2).streams).map (fun s => (s.isActive, s.sessionId)))
      ∧ (∀ i, i ∈ [0, 1] → i ≠ 1 →
          i ∈ (alookup "s" (broadcastEvent (fun x => x == 1)
            (ASState.mk [(0, StreamRec.mk "s" true 0), (1, StreamRec.mk "s" true 0)] [("s", [0, 1])] [] 100 2) "s" 7).1.sessionStreams).getD [])) :=
  ⟨rfl, by decide, rfl, rfl, rfl,
    broadcast_isolation_c9 (ASState.mk [(0, StreamRec.mk "s" true 0), (1, StreamRec.mk "s" true 0)] [("s", [0, 1])] [] 100 2) "s" 7 1 [0, 1] (StreamRec.mk "s" true 0) rfl (by decide)
      rfl rfl rfl⟩



/-! ### C10: replay buffer retention and catch-up -/

theorem broadcastEvent_nosub (fail : Nat → Bool) (st : ASState) (sid : String) (ev : Nat)
    (h : alookup sid st.sessionStreams = none) :
    broadcastEvent fail st sid ev = (addToEventBuffer st sid ev, []) := by
  have h1 : alookup sid (addToEventBuffer st sid ev).sessionStreams = none := h
  unfold broadcastEvent
  simp only [h1]

theorem addToEventBuffer_self (st : ASState) (sid : String) (ev : Nat)
    (hlen : ((alookup sid st.eventBuffer).getD []).length ≤ st.bufferSize)
    (hcap : 1 ≤ st.bufferSize) :
    alookup sid (addToEventBuffer st sid ev).eventBuffer
      = some (rtake (((alookup sid st.eventBuffer).getD []) ++ [ev]) st.bufferSize) := by
  simp only [addToEventBuffer, alookup_mapSet_self]
  rw [push_shift_eq_rtake _ _ _ hlen hcap]

theorem replayLoop_nofail (streamId : Nat) :
    ∀ evs : List Nat,
      replayLoop (fun x => false) streamId evs = evs.map (fun e => (streamId, e))
  | [] => rfl
  | e :: rest => by
    simp [replayLoop, replayLoop_nofail streamId rest]

theorem replayRecentEvents_nofail (st : ASState) (streamId : Nat) (sid : String)
    (buf : List Nat) (hb : alookup sid st.eventBuffer = some buf) :
    replayRecentEvents (fun x => false) st streamId sid
      = (rtake buf 20).map (fun e => (streamId, e)) := by
  unfold replayRecentEvents
  rw [hb]
  cases buf with
  | nil => rfl
  | cons b bs => simp [replayLoop_nofail]

theorem broadcastAll_cons (fail : Nat → Bool) (st : ASState) (sid : String) (e : Nat)
    (rest : List Nat) (st1 : ASState) (h : broadcastEvent fail st sid e = (st1, [])) :
    broadcastAll fail st sid (e :: rest) = broadcastAll fail st1 sid rest := by
  unfold broadcastAll
  rw [List.foldl_cons]
  simp [h]

theorem broadcastAll_nosub (fail : Nat → Bool) (sid : String) :
    ∀ (es : List Nat) (st : ASState) (buf : List Nat),
      alookup sid st.sessionStreams = none →
      alookup sid st.eventBuffer = some buf →
      buf.length ≤ st.bufferSize →
      1 ≤ st.bufferSize →
      (broadcastAll fail st sid es).2 = []
      ∧ (broadcastAll fail st sid es).1.sessionStreams = st.sessionStreams
      ∧ (broadcastAll fail st sid es).1.streams = st.streams
      ∧ (broadcastAll fail st sid es).1.bufferSize = st.bufferSize
      ∧ (broadcastAll fail st sid es).1.nextStreamId = st.nextStreamId
      ∧ alookup sid (broadcastAll fail st sid es).1.eventBuffer
          = some (rtake (buf ++ es) st.bufferSize)
  | [], st, buf, hns, hb, hlen, hcap => by
    refine ⟨rfl, rfl, rfl, rfl, rfl, ?_⟩
    rw [List.append_nil, rtake_length_le buf _ hlen]
    exact hb
  | e :: rest, st, buf, hns, hb, hlen, hcap => by
    have hstep := broadcastEvent_nosub fail st sid e hns
    have hgd : (alookup sid st.eventBuffer).getD [] = buf := by rw [hb]; rfl
    have hb1 : alookup sid (addToEventBuffer st sid e).eventBuffer
        = some (rtake (buf ++ [e]) st.bufferSize) := by
      have h := addToEventBuffer_self st sid e (by rw [hgd]; exact hlen) hcap
      rw [hgd] at h
      exact h
    have hns1 : alookup sid (addToEventBuffer st sid e).sessionStreams = none := hns
    have hlen1 : (rtake (buf ++ [e]) st.bufferSize).length
        ≤ (addToEventBuffer st sid e).bufferSize := by
      rw [rtake_length]
      exact Nat.min_le_left _ _
    have IH := broadcastAll_nosub fail sid rest (addToEventBuffer st sid e)
      (rtake (buf ++ [e]) st.bufferSize) hns1 hb1 hlen1 hcap
    rw [broadcastAll_cons fail st sid e rest _ hstep]
    obtain ⟨o1, o2, o3, o4, o5, o6⟩ := IH
    refine ⟨o1, ?_, ?_, ?_, ?_, ?_⟩
    · rw [o2]; rfl
    · rw [o3]; rfl
    · rw [o4]; rfl
    · rw [o5]; rfl
    · rw [o6]
      have hbs : (addToEventBuffer st sid e).bufferSize = st.bufferSize := rfl
      rw [hbs, rtake_rtake_append, List.append_assoc, List.singleton_append]

theorem startStream_parts (fail : Nat → Bool) (st : ASState) (sid : String) :
    (startStream fail st sid).2.1 = st.nextStreamId
    ∧ (startStream fail st sid).1.streams
        = mapSet st.streams st.nextStreamId
            { sessionId := sid, isActive := true, eventCount := 0 }
    ∧ (startStream fail st sid).1.sessionStreams
        = mapSet st.sessionStreams sid
            (((alookup sid st.sessionStreams).getD []) ++ [st.nextStreamId])
    ∧ (startStream fail st sid).1.eventBuffer = st.eventBuffer
    ∧ (startStream fail st sid).2.2
        = replayRecentEvents fail (startStream fail st sid).1 st.nextStreamId sid :=
  ⟨rfl, rfl, rfl, rfl, rfl⟩

theorem broadcastEvent_single (fail : Nat → Bool) (st : ASState) (sid : String)
    (ev streamId : Nat) (s : StreamRec)
    (hids : alookup sid st.sessionStreams = some [streamId])
    (hstr : alookup streamId st.streams = some s)
    (hact : s.isActive = true)
    (hfail : fail streamId = false) :
    (broadcastEvent fail st sid ev).2 = [(streamId, ev)] := by
  have hids1 : alookup sid (addToEventBuffer st sid ev).sessionStreams
      = some [streamId] := hids
  have hstr1 : alookup streamId (addToEventBuffer st sid ev).streams = some s := hstr
  unfold broadcastEvent
  simp only [hids1, show (([streamId] : List Nat)).isEmpty = false from rfl,
    Bool.false_eq_true, if_false, List.foldl_cons, List.foldl_nil]
  unfold broadcastStep
  dsimp only
  rw [hstr1]
  simp [hact, hfail]


/-- C10: broadcastEvent buffers the event before checking for
subscribers, so with zero active streams for the session every
broadcast event is still retained in the bounded replay buffer (the
most recent bufferSize events, in arrival order); a stream started
afterwards replays exactly the last (up to 20) buffered events in
original arrival order, and only subsequent broadcasts deliver live
events to it — so the replayed events precede any live one. -/
theorem replay_buffer_c10 (st : ASState) (sid : String) (buf es : List Nat) (ev : Nat)
    (hns : alookup sid st.sessionStreams = none)
    (hb : alookup sid st.eventBuffer = some buf)
    (hlen : buf.length ≤ st.bufferSize)
    (hcap : 1 ≤ st.bufferSize) :
    (broadcastAll (fun x => false) st sid es).2 = []
    ∧ alookup sid (broadcastAll (fun x => false) st sid es).1.eventBuffer
        = some (rtake (buf ++ es) st.bufferSize)
    ∧ (startStream (fun x => false) (broadcastAll (fun x => false) st sid es).1 sid).2.2
        = (rtake (rtake (buf ++ es) st.bufferSize) 20).map
            (fun e => ((startStream (fun x => false)
              (broadcastAll (fun x => false) st sid es).1 sid).2.1, e))
    ∧ (broadcastEvent (fun x => false)
          (startStream (fun x => false) (broadcastAll (fun x => false) st sid es).1 sid).1
          sid ev).2
        = [((startStream (fun x => false)
            (broadcastAll (fun x => false) st sid es).1 sid).2.1, ev)] := by
  obtain ⟨o1, o2, o3, o4, o5, o6⟩ := broadcastAll_nosub (fun x => false) sid es st buf
    hns hb hlen hcap
  obtain ⟨p1, p2, p3, p4, p5⟩ := startStream_parts (fun x => false)
    (broadcastAll (fun x => false) st sid es).1 sid
  have hb2 : alookup sid
      (startStream (fun x => false) (broadcastAll (fun x => false) st sid es).1 sid).1.eventBuffer
      = some (rtake (buf ++ es) st.bufferSize) := by
    rw [p4]
    exact o6
  refine ⟨o1, o6, ?_, ?_⟩
  · rw [p5, p1, replayRecentEvents_nofail _ _ _ _ hb2]
  · have hgd : (alookup sid (broadcastAll (fun x => false) st sid es).1.sessionStreams).getD []
        = [] := by
      rw [o2, hns]
      rfl
    have hids : alookup sid
        (startStream (fun x => false) (broadcastAll (fun x => false) st sid es).1 sid).1.sessionStreams
        = some [(broadcastAll (fun x => false) st sid es).1.nextStreamId] := by
      rw [p3, alookup_mapSet_self, hgd]
      rfl
    have hstr : alookup ((broadcastAll (fun x => false) st sid es).1.nextStreamId)
        (startStream (fun x => false) (broadcastAll (fun x => false) st sid es).1 sid).1.streams
        = some { sessionId := sid, isActive := true, eventCount := 0 } := by
      rw [p2]
      exact alookup_mapSet_self _ _ _
    have h4 := broadcastEvent_single (fun x => false)
      (startStream (fun x => false) (broadcastAll (fun x => false) st sid es).1 sid).1 sid ev
      ((broadcastAll (fun x => false) st sid es).1.nextStreamId)
      { sessionId := sid, isActive := true, eventCount := 0 } hids hstr rfl rfl
    rw [h4, p1]


/-- Witness for C10: two events broadcast with no subscribers, then a
stream started and a live event delivered. -/
theorem replay_buffer_c10_witness :
    alookup "s" (ASState.mk [] [] [("s", [])] 100 0).sessionStreams = none
    ∧ alookup "s" (ASState.mk [] [] [("s", [])] 100 0).eventBuffer = some []
    ∧ ([] : List Nat).length ≤ (ASState.mk [] [] [("s", [])] 100 0).bufferSize
    ∧ 1 ≤ (ASState.mk [] [] [("s", [])] 100 0).bufferSize
    ∧ ((broadcastAll (fun x => false) (ASState.mk [] [] [("s", [])] 100 0) "s" [1, 2]).2 = []
      ∧ alookup "s" (broadcastAll (fun x => false) (ASState.mk [] [] [("s", [])] 100 0) "s" [1, 2]).1.eventBuffer
          = some (rtake ([] ++ [1, 2]) (ASState.mk [] [] [("s", [])] 100 0).bufferSize)
      ∧ (startStream (fun x => false)
            (broadcastAll (fun x => false) (ASState.mk [] [] [("s", [])] 100 0) "s" [1, 2]).1 "s").2.2
          = (rtake (rtake ([] ++ [1, 2]) (ASState.mk [] [] [("s", [])] 100 0).bufferSize) 20).map
              (fun e => ((startStream (fun x => false)
                (broadcastAll (fun x => false) (ASState.mk [] [] [("s", [])] 100 0) "s" [1, 2]).1 "s").2.1, e))
      ∧ (broadcastEvent (fun x => false)
            (startStream (fun x => false)
              (broadcastAll (fun x => false) (ASState.mk [] [] [("s", [])] 100 0) "s" [1, 2]).1 "s").1
            "s" 9).2
          = [((startStream (fun x => false)
              (broadcastAll (fun x => false) (ASState.mk [] [] [("s", [])] 100 0) "s" [1, 2]).1 "s").2.1, 9)]) :=
  ⟨rfl, rfl, by decide, by decide,
    replay_buffer_c10 (ASState.mk [] [] [("s", [])] 100 0) "s" [] [1, 2] 9 rfl rfl (by decide) (by decide)⟩

end Mos
